import Mathlib

/-!
Verification development for the procedural city generator
(src/include/Config.h, src/include/City.h, src/src/CityGenerator.cpp).

The C++ pipeline is shallowly embedded here.  Conventions:

* machine integers are modelled as `Nat`/`Int` with explicit `% 2^32`
  where 32-bit overflow matters (the noise hash);
* `double` arithmetic that only feeds *decidable* observations (the
  zoning grid, the green-space quota) is modelled as exact rational
  arithmetic (`ℚ`); `double` arithmetic that feeds geometry (roads,
  blocks, parcels, buildings) is modelled as real arithmetic (`ℝ`),
  with `Real.sqrt`/`Real.cos`/`Real.sin` for `std::sqrt`/`cos`/`sin`;
* comparisons of the form `sqrt e > r` with `r ≥ 0` are modelled on the
  rational side as the equivalent `e > r^2` (square-root monotonicity);
  this is noted at each definition concerned;
* the C++ standard pins down `std::mt19937`'s stream but leaves the
  exact value sequences of `std::shuffle`, `std::uniform_real_distribution`,
  `std::lognormal_distribution` and `std::exponential_distribution`
  implementation-defined.  The generator is therefore modelled as a
  deterministic 32-bit mixed congruential stream threaded through the
  stages in the source's call order; draws map the stream into the
  distribution's support.  No property proved below depends on the
  particular values drawn, only on determinism, on ranges and on
  shuffles being permutations.
-/

/-- Land-use zones, from `ZoneType` in src/include/City.h. -/
inductive ZoneType where
  | None
  | Residential
  | Commercial
  | Industrial
  | Green
deriving DecidableEq, Repr

/-- Road hierarchy levels, from `RoadType` in src/include/City.h. -/
inductive RoadType where
  | Arterial
  | Secondary
  | Local
deriving DecidableEq, Repr

/-- Facility kinds, from `Facility::Type` in src/include/City.h. -/
inductive FacilityType where
  | Hospital
  | School
deriving DecidableEq, Repr

/-- Transport modes, from `Config::TransportMode` in src/include/Config.h. -/
inductive TransportMode where
  | Car
  | PublicTransit
  | Walk
deriving DecidableEq, Repr

/-- Layout styles.  The spec (§3, §9) records that the generator branches on
`cfg.layout` with values Grid/Radial even though the base `Config.h` shown does
not declare the field; it instructs treating it as a real enum field. -/
inductive LayoutType where
  | Grid
  | Radial
deriving DecidableEq, Repr

/-- Width in world units of each road hierarchy level, from `roadWidth` in
src/include/City.h lines 76–83. -/
def roadWidth (t : RoadType) : ℚ :=
  match t with
  | RoadType.Arterial => 8/5
  | RoadType.Secondary => 6/5
  | RoadType.Local => 4/5

/-- Configuration record, from `struct Config` in src/include/Config.h.
`seed` is a 32-bit unsigned value (kept reduced mod 2^32 at use sites),
`double` fields are modelled as `ℚ`.  The `output_prefix` string field of the
source is carried as `output_name` (same content, renamed). -/
structure Config where
  seed : ℕ
  population : ℤ
  grid_size : ℤ
  city_radius : ℚ
  hospitals : ℤ
  schools : ℤ
  green_m2_per_capita : ℚ
  transport_mode : TransportMode
  layout : LayoutType
  output_name : String
deriving DecidableEq, Repr

/-- `Config::normalize` from src/include/Config.h lines 50–58: clamp
out-of-domain numeric fields; total, never fails. -/
def Config.normalize (c : Config) : Config :=
  { c with
    population := if c.population < 0 then 0 else c.population
    grid_size := if c.grid_size < 10 then 10 else c.grid_size
    city_radius :=
      if c.city_radius ≤ 0 then 1/10
      else if c.city_radius > 1 then 1 else c.city_radius
    hospitals := if c.hospitals < 0 then 0 else c.hospitals
    schools := if c.schools < 0 then 0 else c.schools
    green_m2_per_capita :=
      if c.green_m2_per_capita < 0 then 0 else c.green_m2_per_capita }

/-- ASCII `::tolower` (C locale), as applied by `transportModeFromString`. -/
def lowerChar (c : Char) : Char :=
  if 65 ≤ c.toNat ∧ c.toNat ≤ 90 then Char.ofNat (c.toNat + 32) else c

/-- Lower-case an entire string, modelling the `std::transform` call in
src/include/Config.h line 62. -/
def lowerString (s : String) : String :=
  String.mk (s.data.map lowerChar)

/-- `transportModeFromString` from src/include/Config.h lines 61–71.  The
`throw std::invalid_argument` branch is modelled as `Option.none`. -/
def transportModeFromString (s : String) : Option TransportMode :=
  let t := lowerString s
  if t = "car" then some TransportMode.Car
  else if t = "public" ∨ t = "public_transit" ∨ t = "transit" then
    some TransportMode.PublicTransit
  else if t = "walk" ∨ t = "pedestrian" then some TransportMode.Walk
  else none

/-- Reduce modulo 2^32, the effect of `std::uint32_t` arithmetic. -/
def mask32 (n : ℕ) : ℕ := n % 4294967296

/-- The 24-bit integer kernel of `noise` in src/src/CityGenerator.cpp lines
13–28: the bit-mixing hash `h`, with the final `h & 0xFFFFFF` mask.  All
intermediate values are 32-bit (`<< 6`, `>> k` are the shown multiplications
and truncated divisions); the pipeline only calls it with non-negative
coordinates, so the `static_cast<uint32_t>` of the `int` arguments is the
plain value mod 2^32. -/
def noiseNum (x y seed : ℕ) : ℕ :=
  let h1 := mask32 (mask32 x * 374761393)
  let h2 := mask32 (h1 + mask32 y * 668265263)
  let h3 := h2 ^^^ mask32 (seed + 2654435769 + h2 * 64 + h2 / 4)
  let h4 := h3 ^^^ (h3 / 131072)
  let h5 := mask32 (h4 * 3982152891)
  let h6 := h5 ^^^ (h5 / 2048)
  let h7 := mask32 (h6 * 2890668881)
  let h8 := h7 ^^^ (h7 / 32768)
  h8 % 16777216

/-- `noise` itself: the hash scaled to `[0,1)` by `/ 0x1000000`
(src/src/CityGenerator.cpp line 27), an exact rational. -/
def noise (x y seed : ℕ) : ℚ := (noiseNum x y seed : ℚ) / 16777216

/-- Fractal noise from `fractalNoise` in src/src/CityGenerator.cpp lines
33–50 with the default `octaves = 4`.  Octave `i` samples at coordinates
scaled by `2^i` (the `static_cast<int>(x * frequency)` is exact for these
powers of two) with seed offset `17·i`, amplitude `(1/2)^i`; the weighted sum
is normalised by `amplitudeSum = 1 + 1/2 + 1/4 + 1/8 = 15/8`. -/
def fractalNoise (x y seed : ℕ) : ℚ :=
  (noise x y seed
    + noise (2 * x) (2 * y) (mask32 (seed + 17)) / 2
    + noise (4 * x) (4 * y) (mask32 (seed + 34)) / 4
    + noise (8 * x) (8 * y) (mask32 (seed + 51)) / 8) / (15/8)

/-- Integer numerator of `fractalNoise`:
`fractalNoise x y s = fractalNum x y s / (15 · 2^24)` (proved below as
`fractalNoise_eq_fractalNum`).  Used so that the zone-threshold tests are
kernel-evaluable integer comparisons. -/
def fractalNum (x y seed : ℕ) : ℕ :=
  8 * noiseNum x y seed
    + 4 * noiseNum (2 * x) (2 * y) (mask32 (seed + 17))
    + 2 * noiseNum (4 * x) (4 * y) (mask32 (seed + 34))
    + noiseNum (8 * x) (8 * y) (mask32 (seed + 51))

/-- Grid dimension used by `CityGenerator::generate`: the source passes
`cfg.grid_size` (an `int`) to `City(int)`; normalized configurations have
`grid_size ≥ 10`. -/
def Config.gridN (cfg : Config) : ℕ := cfg.grid_size.toNat

/-- Grid centre `size / 2.0` from src/src/CityGenerator.cpp line 307. -/
def Config.centre (cfg : Config) : ℚ := (cfg.gridN : ℚ) / 2

/-- Urbanization radius `size * city_radius / 2` from line 308. -/
def Config.radiusQ (cfg : Config) : ℚ := ((cfg.gridN : ℚ) * cfg.city_radius) / 2

/-- Squared distance from the centre of cell `(x, y)` to the grid centre,
matching the `dx = x + 0.5 - centre` / `dy = y + 0.5 - centre` computation of
src/src/CityGenerator.cpp lines 314–316. -/
def cellDistSq (cfg : Config) (x y : ℕ) : ℚ :=
  ((x : ℚ) + 1/2 - cfg.centre) ^ 2 + ((y : ℚ) + 1/2 - cfg.centre) ^ 2

/-- Decidable (integer) form of the urbanization-circle test
`sqrt(dx²+dy²) > radius` of src/src/CityGenerator.cpp lines 314–317.
With `dx = x + 1/2 - N/2`, `dy` likewise and `radius = N·(a/b)/2`
(`a/b` the reduced `city_radius`), the comparison is equivalent to
`b²·((2x+1−N)² + (2y+1−N)²) > a²·N²` over `ℤ` (square-root monotonicity
plus clearing the positive denominators).  Proved equivalent to the
rational form in `cellOutside_iff` below. -/
def cellOutside (cfg : Config) (x y : ℕ) : Bool :=
  let N : ℤ := (cfg.gridN : ℤ)
  let dx : ℤ := 2 * (x : ℤ) + 1 - N
  let dy : ℤ := 2 * (y : ℤ) + 1 - N
  decide ((cfg.city_radius.den : ℤ) ^ 2 * (dx ^ 2 + dy ^ 2) >
    cfg.city_radius.num ^ 2 * N ^ 2)

/-- Zone assigned to one cell by stage 1 of `CityGenerator::generate`
(src/src/CityGenerator.cpp lines 312–332).  The threshold tests
`value < 0.55 / 0.75 / 0.90` are written as the equivalent integer
comparisons on `fractalNum` (`value = fractalNum / (15·2^24)`, so e.g.
`value < 0.55 ↔ 20·fractalNum < 11·15·2^24`); the equivalence with the
rational thresholds on `fractalNoise` is proved in `zoneForCell_eq`
below. -/
def zoneForCell (cfg : Config) (x y : ℕ) : ZoneType :=
  if cellOutside cfg x y then ZoneType.None
  else
    let v := fractalNum x y (mask32 cfg.seed)
    if 20 * v < 2768240640 then ZoneType.Residential
    else if 4 * v < 754974720 then ZoneType.Commercial
    else if 10 * v < 2264924160 then ZoneType.Industrial
    else ZoneType.Green

/-- The full stage-1 zoning grid, row-major (`zones[y * size + x]`, matching
`City::zoneAt`); the double loop of lines 312–332 writes every cell exactly
once, so the grid is the row-major tabulation of `zoneForCell`. -/
def zoningGrid (cfg : Config) : List ZoneType :=
  (List.range (cfg.gridN * cfg.gridN)).map
    (fun i => zoneForCell cfg (i % cfg.gridN) (i / cfg.gridN))

/-- Deterministic generator state standing in for the call-owned
`std::mt19937 rng(cfg.seed)` (src/src/CityGenerator.cpp line 310).  See the
file header: the exact values drawn through `std::shuffle` and the
`<random>` distributions are implementation-defined, so the stream itself is
modelled; determinism and the threading order are preserved exactly. -/
structure Rng where
  state : ℕ
deriving DecidableEq, Repr

/-- Seed the stream, as `std::mt19937 rng(cfg.seed)` does. -/
def mkRng (seed : ℕ) : Rng := ⟨mask32 seed⟩

/-- One 32-bit draw from the modelled stream. -/
def Rng.next (g : Rng) : ℕ × Rng :=
  let s := mask32 (g.state * 1664525 + 1013904223)
  (s, ⟨s⟩)

/-- A draw in `{0, …, n−1}` (callers ensure `n > 0`). -/
def Rng.below (g : Rng) (n : ℕ) : ℕ × Rng :=
  let p := g.next
  (p.1 % n, p.2)

/-- One permutation step: pick an index, move that element to the front,
recurse on the rest.  `fuel` is the list length at the top call. -/
def shuffleGo {α : Type} (g : Rng) (fuel : ℕ) (l : List α) : List α × Rng :=
  match fuel, l with
  | 0, l => (l, g)
  | _ + 1, [] => ([], g)
  | fuel + 1, a :: rest =>
    let p := g.below (a :: rest).length
    let x := (a :: rest).getD p.1 a
    let r := shuffleGo p.2 fuel ((a :: rest).eraseIdx p.1)
    (x :: r.1, r.2)

/-- Deterministic shuffle standing in for `std::shuffle(candidates, rng)`
(src/src/CityGenerator.cpp line 361): a Fisher–Yates-style selection driven
by the modelled stream.  Always a permutation of its input (proved below). -/
def shuffleList {α : Type} (g : Rng) (l : List α) : List α × Rng :=
  shuffleGo g l.length l

/-- Green-cell target of stage 2, from src/src/CityGenerator.cpp lines
339–342: `ceil((cfg.population * 8.0) / 10000)` — the source hard-codes
`greenAreaPerPerson = 8.0` and `cellArea = 100*100` and ignores
`cfg.green_m2_per_capita`.  Written as the equivalent integer ceiling
division `(8·population + 9999) / 10000` (exact for the non-negative
populations produced by `Config::normalize`; proved equal to the rational
ceiling in `targetGreenCells_eq` below). -/
def targetGreenCells (cfg : Config) : ℕ :=
  (8 * cfg.population.toNat + 9999) / 10000

/-- Stage 2 (green quota) of `CityGenerator::generate`, lines 333–368:
count current green cells; if below target, collect the indices of
Residential/Industrial cells in ascending order, shuffle them with the
pipeline generator, and convert the first `target − current` of them to
Green. -/
def greenStage (cfg : Config) (zs : List ZoneType) (g : Rng) :
    List ZoneType × Rng :=
  let target := targetGreenCells cfg
  let current := zs.count ZoneType.Green
  if current < target then
    let candidates := (List.range zs.length).filter
      (fun i => zs.getD i ZoneType.None = ZoneType.Residential ∨
                zs.getD i ZoneType.None = ZoneType.Industrial)
    let p := shuffleList g candidates
    let chosen := p.1.take (target - current)
    (chosen.foldl (fun acc i => acc.set i ZoneType.Green) zs, p.2)
  else (zs, g)

/-! ### Geometry model (real-valued), shared data structures -/

noncomputable section

/-- Axis-aligned rectangle, from `struct Rect` in src/include/City.h. -/
structure Rect where
  x0 : ℝ
  y0 : ℝ
  x1 : ℝ
  y1 : ℝ

/-- `Rect::width`. -/
def Rect.width (r : Rect) : ℝ := r.x1 - r.x0

/-- `Rect::height`. -/
def Rect.height (r : Rect) : ℝ := r.y1 - r.y0

/-- `Rect::centreX`. -/
def Rect.centreX (r : Rect) : ℝ := (r.x0 + r.x1) * (1/2)

/-- `Rect::centreY`. -/
def Rect.centreY (r : Rect) : ℝ := (r.y0 + r.y1) * (1/2)

/-- 2D point, from `Vec2` used by the radial layout. -/
structure Vec2 where
  x : ℝ
  y : ℝ

/-- A quadrilateral given by its four corners (the `std::array<Vec2, 4>`
corner sets of blocks/buildings). -/
structure Quad where
  p0 : Vec2
  p1 : Vec2
  p2 : Vec2
  p3 : Vec2

/-- Road segment, from `struct RoadSegment` in src/include/City.h. -/
structure RoadSegment where
  x1 : ℝ
  y1 : ℝ
  x2 : ℝ
  y2 : ℝ
  type : RoadType

/-- Building record, from `struct Building` in src/include/City.h plus the
`corners`/`hasCorners`/`facilityType` members used by CityGenerator.cpp. -/
structure Building where
  footprint : Rect
  corners : Quad
  hasCorners : Bool
  zone : ZoneType
  height : ℤ
  facility : Bool
  facilityType : FacilityType

/-- Block record, from `struct Block` plus the corner members used by the
generator. -/
structure Block where
  bounds : Rect
  corners : Quad
  hasCorners : Bool

/-- Facility record, from `struct Facility` in src/include/City.h. -/
structure Facility where
  x : ℝ
  y : ℝ
  type : FacilityType

/-- The city model, from `class City` in src/include/City.h: a row-major
zoning grid plus the generated collections. -/
structure City where
  size : ℕ
  zones : List ZoneType
  buildings : List Building
  facilities : List Facility
  roads : List RoadSegment
  blocks : List Block

/-- `City::zoneAt` (src/include/City.h lines 122–129): row-major lookup
`zones[y*size + x]`.  The source performs no bounds check (out-of-range is a
caller error); the model totalises with the `None` default. -/
def City.zoneAt (c : City) (x y : ℕ) : ZoneType :=
  c.zones.getD (y * c.size + x) ZoneType.None

/-- Real-valued grid centre (`centre` at src/src/CityGenerator.cpp 307). -/
def Config.centreR (cfg : Config) : ℝ := ((cfg.centre : ℚ) : ℝ)

/-- Real-valued urbanization radius (line 308). -/
def Config.radiusR (cfg : Config) : ℝ := ((cfg.radiusQ : ℚ) : ℝ)

/-- One uniform real draw in `[lo, hi)` from the modelled stream, standing in
for `std::uniform_real_distribution<double>(lo, hi)(rng)` (value sequence is
implementation-defined; see file header). -/
def unifR (g : Rng) (lo hi : ℝ) : ℝ × Rng :=
  let p := g.next
  (lo + (hi - lo) * ((p.1 : ℝ) / 4294967296), p.2)

/-- A draw in `[0,1)` from the modelled stream. -/
def draw01 (g : Rng) : ℝ × Rng :=
  let p := g.next
  (((p.1 : ℝ) / 4294967296), p.2)

/-- Modelled `std::lognormal_distribution<double>(log median, sigma)` draw
(implementation-defined value sequence; the model keeps the draw near the
median — no claim depends on the value, only on the stream advancing). -/
def lognormalDraw (median sigma : ℝ) (g : Rng) : ℝ × Rng :=
  let u := draw01 g
  (median * (1 + sigma * (u.1 - 1/2)), u.2)

/-- Modelled `std::exponential_distribution<double>(rate)` draw (same
caveat as `lognormalDraw`). -/
def exponentialDraw (rate : ℝ) (g : Rng) : ℝ × Rng :=
  let u := draw01 g
  (u.1 / rate, u.2)

/-- `clampHeight` from `sampleHeight` (src/src/CityGenerator.cpp lines
67–70): round, then `std::clamp(v, minH, maxH)` (`= min (max v lo) hi` for
`lo ≤ hi`).  `std::round` rounds halves away from zero; all rounded values
here are positive, where `round` agrees. -/
def clampHeight (h : ℝ) (lo hi : ℤ) : ℤ := min (max ⌊h + 1/2⌋ lo) hi

/-- `sampleHeight` from src/src/CityGenerator.cpp lines 63–96.  Zone `None`
and `Green` fall into the `default` branch returning 0 with no draw. -/
def sampleHeight (zone : ZoneType) (footprint : Rect)
    (distToCentre cityRadius : ℝ) (g : Rng) : ℤ × Rng :=
  let area := max (footprint.width * footprint.height) 1
  let radial := 1 - min (max (distToCentre / max cityRadius (1/1000000)) 0) 1
  match zone with
  | ZoneType.Residential =>
    let p := lognormalDraw 3 (35/100) g
    (clampHeight (p.1 * (6/10 + 7/10 * radial)
      + min (Real.sqrt area * (1/10)) (3/2)) 2 12, p.2)
  | ZoneType.Commercial =>
    let p := lognormalDraw 8 (1/2) g
    (clampHeight (p.1 * (8/10 + 12/10 * radial)
      + min (Real.sqrt area * (15/100)) 3) 4 40, p.2)
  | ZoneType.Industrial =>
    let p := exponentialDraw (1/5) g
    (clampHeight ((2 + p.1) * (7/10 + 6/10 * radial)
      + min (Real.sqrt area * (5/100)) 1) 2 14, p.2)
  | _ => (0, g)

/-- `jitterFootprint` from src/src/CityGenerator.cpp lines 100–131: shrink by
a uniformly drawn area scale, jitter the centre, clamp back inside the
parcel. -/
def jitterFootprint (parcel : Rect) (g : Rng) : Rect × Rng :=
  let w := parcel.width
  let h := parcel.height
  if w ≤ 0 ∨ h ≤ 0 then (parcel, g)
  else
    let pS := unifR g (4/10) (9/10)
    let linearScale := Real.sqrt pS.1
    let newW := w * linearScale
    let newH := h * linearScale
    let marginX := (w - newW) * (1/2)
    let marginY := (h - newH) * (1/2)
    let pJX := unifR pS.2 (-(marginX * (6/10))) (marginX * (6/10))
    let pJY := unifR pJX.2 (-(marginY * (6/10))) (marginY * (6/10))
    let cx := parcel.centreX + pJX.1
    let cy := parcel.centreY + pJY.1
    let rx0 := cx - newW * (1/2)
    let rx1 := cx + newW * (1/2)
    let ry0 := cy - newH * (1/2)
    let ry1 := cy + newH * (1/2)
    let shiftX0 := max (parcel.x0 - rx0) 0
    let shiftY0 := max (parcel.y0 - ry0) 0
    let shiftX1 := max (rx1 - parcel.x1) 0
    let shiftY1 := max (ry1 - parcel.y1) 0
    (⟨rx0 + shiftX0 - shiftX1, ry0 + shiftY0 - shiftY1,
      rx1 + shiftX0 - shiftX1, ry1 + shiftY0 - shiftY1⟩, pJY.2)

/-- `subdivideRect` from src/src/CityGenerator.cpp lines 135–163, fuelled by
the remaining recursion depth: the source stops at `depth > 6` starting from
depth 0, i.e. fuel `7 - depth`, so the top-level call uses fuel 7. -/
def subdivideRect (minSize maxSize : ℝ) : ℕ → Rect → Rng → List Rect × Rng
  | 0, r, g => ([r], g)
  | fuel + 1, r, g =>
    let w := r.width
    let h := r.height
    if w ≤ maxSize ∧ h ≤ maxSize then ([r], g)
    else
      let minCut := if w > h then r.x0 + minSize else r.y0 + minSize
      let maxCut := if w > h then r.x1 - minSize else r.y1 - minSize
      if maxCut ≤ minCut then ([r], g)
      else
        let p := unifR g minCut maxCut
        let a : Rect := if w > h then ⟨r.x0, r.y0, p.1, r.y1⟩
          else ⟨r.x0, r.y0, r.x1, p.1⟩
        let b : Rect := if w > h then ⟨p.1, r.y0, r.x1, r.y1⟩
          else ⟨r.x0, p.1, r.x1, r.y1⟩
        let ra := subdivideRect minSize maxSize fuel a p.2
        let rb := subdivideRect minSize maxSize fuel b ra.2
        (ra.1 ++ rb.1, rb.2)

/-- `parcelizeBlock` from src/src/CityGenerator.cpp lines 168–196: carve a
courtyard when a drawn margin fits, subdividing the four surrounding strips
(skipping strips thinner than `minParcel = 3`); otherwise subdivide the whole
block (`maxParcel = 12`). -/
def parcelizeBlock (block : Block) (g : Rng) : List Rect × Rng :=
  let b := block.bounds
  let w := b.width
  let h := b.height
  let pF := unifR g (15/100) (30/100)
  let margin := min w h * pF.1
  if margin * 2 < w ∧ margin * 2 < h then
    let inner : Rect := ⟨b.x0 + margin, b.y0 + margin, b.x1 - margin, b.y1 - margin⟩
    let strips : List Rect :=
      [⟨b.x0, b.y0, b.x1, inner.y0⟩,
       ⟨b.x0, inner.y1, b.x1, b.y1⟩,
       ⟨b.x0, inner.y0, inner.x0, inner.y1⟩,
       ⟨inner.x1, inner.y0, b.x1, inner.y1⟩]
    strips.foldl (fun acc s =>
      if s.width ≥ 3 ∧ s.height ≥ 3 then
        let r := subdivideRect 3 12 7 s acc.2
        (acc.1 ++ r.1, r.2)
      else acc) ([], pF.2)
  else subdivideRect 3 12 7 b pF.2

/-- `rectToQuad` from src/src/CityGenerator.cpp lines 198–205. -/
def rectToQuad (r : Rect) : Quad :=
  ⟨⟨r.x0, r.y0⟩, ⟨r.x1, r.y0⟩, ⟨r.x1, r.y1⟩, ⟨r.x0, r.y1⟩⟩

/-- `boundsFromQuad` from src/src/CityGenerator.cpp lines 207–218. -/
def boundsFromQuad (q : Quad) : Rect :=
  ⟨min (min (min q.p0.x q.p1.x) q.p2.x) q.p3.x,
   min (min (min q.p0.y q.p1.y) q.p2.y) q.p3.y,
   max (max (max q.p0.x q.p1.x) q.p2.x) q.p3.x,
   max (max (max q.p0.y q.p1.y) q.p2.y) q.p3.y⟩

/-- `centroidOfQuad` from src/src/CityGenerator.cpp lines 220–230. -/
def centroidOfQuad (q : Quad) : Vec2 :=
  ⟨(q.p0.x + q.p1.x + q.p2.x + q.p3.x) * (1/4),
   (q.p0.y + q.p1.y + q.p2.y + q.p3.y) * (1/4)⟩

/-- `polarToCartesian` from src/src/CityGenerator.cpp lines 232–236. -/
def polarToCartesian (cx cy r theta : ℝ) : Vec2 :=
  ⟨cx + r * Real.cos theta, cy + r * Real.sin theta⟩

/-- `sampleZone` from src/src/CityGenerator.cpp lines 53–59: clamp the
footprint centre into the grid, floor to cell indices, look the zone up.
(`std::clamp(v, lo, hi) = min (max v lo) hi` for `lo ≤ hi`.) -/
def sampleZone (size : ℕ) (zones : List ZoneType) (r : Rect) : ZoneType :=
  let cx := min (max r.centreX 0) ((size : ℝ) - 1)
  let cy := min (max r.centreY 0) ((size : ℝ) - 1)
  let ix := ⌊cx⌋
  let iy := ⌊cy⌋
  zones.getD (iy * size + ix).toNat ZoneType.None

end

/-! ### Grid layout (src/src/CityGenerator.cpp lines 372–458) -/

noncomputable section

/-- Road line classification, `classifyRoad` at src/src/CityGenerator.cpp
lines 385–392: normalized distance of the line from the centre, thresholds
0.15 / 0.6. -/
def classifyRoad (anchor radius coord : ℝ) : RoadType :=
  let denom := if radius > 1/1000000 then radius else 1
  let norm := |coord - anchor| / denom
  if norm < 15/100 then RoadType.Arterial
  else if norm < 6/10 then RoadType.Secondary
  else RoadType.Local

/-- The seven x road alignments of the grid layout (lines 375–376).  The
source sorts and deduplicates this list; for `radius > 0` it is already
strictly increasing (proved in `gridXLines_sorted` below), so the model keeps
the literal list. -/
def gridXLines (cfg : Config) : List ℝ :=
  [cfg.centreR - cfg.radiusR, cfg.centreR - cfg.radiusR * (9/10),
   cfg.centreR - cfg.radiusR * (1/2), cfg.centreR,
   cfg.centreR + cfg.radiusR * (1/2), cfg.centreR + cfg.radiusR * (9/10),
   cfg.centreR + cfg.radiusR]

/-- The seven y road alignments (lines 377–378); same values as
`gridXLines` since `cx = cy = centre`. -/
def gridYLines (cfg : Config) : List ℝ := gridXLines cfg

/-- A vertical road of the grid layout (lines 398–401): spans
`cy - radius … cy + radius`, classified by its x alignment. -/
def gridVRoad (cfg : Config) (x : ℝ) : RoadSegment :=
  ⟨x, cfg.centreR - cfg.radiusR, x, cfg.centreR + cfg.radiusR,
   classifyRoad cfg.centreR cfg.radiusR x⟩

/-- A horizontal road of the grid layout (lines 402–405). -/
def gridHRoad (cfg : Config) (y : ℝ) : RoadSegment :=
  ⟨cfg.centreR - cfg.radiusR, y, cfg.centreR + cfg.radiusR, y,
   classifyRoad cfg.centreR cfg.radiusR y⟩

/-- All grid-layout roads, vertical lines first (source loop order). -/
def gridRoads (cfg : Config) : List RoadSegment :=
  (gridXLines cfg).map (gridVRoad cfg) ++ (gridYLines cfg).map (gridHRoad cfg)

/-- Half-width inset used when carving blocks, `insetFor` (lines 407–409). -/
def insetFor (cfg : Config) (coord : ℝ) : ℝ :=
  (1/2) * ((roadWidth (classifyRoad cfg.centreR cfg.radiusR coord) : ℚ) : ℝ)

/-- Consecutive pairs of a list (the `xi, xi+1` indexing of lines 410–411). -/
def consecPairs {α : Type} (l : List α) : List (α × α) := l.zip l.tail

/-- Grid-layout blocks (lines 406–431): the lattice cell between two
consecutive x lines and two consecutive y lines, inset by each bounding
road's half-width; discarded if the inset collapses, if the centre is beyond
`1.05 × radius`, or if thinner than 1 unit. -/
def gridBlocks (cfg : Config) : List Block :=
  (consecPairs (gridXLines cfg)).flatMap (fun xp =>
    (consecPairs (gridYLines cfg)).filterMap (fun yp =>
      let x0 := xp.1 + insetFor cfg xp.1
      let x1 := xp.2 - insetFor cfg xp.2
      let y0 := yp.1 + insetFor cfg yp.1
      let y1 := yp.2 - insetFor cfg yp.2
      if x1 ≤ x0 ∨ y1 ≤ y0 then none
      else
        let bounds : Rect := ⟨x0, y0, x1, y1⟩
        let dist := Real.sqrt ((bounds.centreX - cfg.centreR) ^ 2 +
          (bounds.centreY - cfg.centreR) ^ 2)
        if dist > cfg.radiusR * (105/100) then none
        else if bounds.width < 1 ∨ bounds.height < 1 then none
        else some ⟨bounds, rectToQuad bounds, true⟩))

/-- Default building value (for the unchecked `buildings[idx]` accesses of
the facility stage; indices are always in range). -/
instance : Inhabited Building :=
  ⟨⟨⟨0, 0, 0, 0⟩, rectToQuad ⟨0, 0, 0, 0⟩, false, ZoneType.None, 0, false,
    FacilityType.Hospital⟩⟩

/-- Body of the per-parcel building creation for the grid layout (lines
435–457): jitter, discard beyond `1.02 × radius`, sample the zone (discard
`None`), sample the height (zeroed for Green). -/
def gridParcelStep (cfg : Config) (zones : List ZoneType)
    (acc : List Building × Rng) (fp : Rect) : List Building × Rng :=
  let ja := jitterFootprint fp acc.2
  let adjusted := ja.1
  let dist := Real.sqrt ((adjusted.centreX - cfg.centreR) ^ 2 +
    (adjusted.centreY - cfg.centreR) ^ 2)
  if dist > cfg.radiusR * (102/100) then (acc.1, ja.2)
  else
    let z := sampleZone cfg.gridN zones adjusted
    if z = ZoneType.None then (acc.1, ja.2)
    else
      let hp := sampleHeight z adjusted dist cfg.radiusR ja.2
      let b : Building :=
        { footprint := adjusted, corners := rectToQuad adjusted,
          hasCorners := true, zone := z,
          height := if z = ZoneType.Green then 0 else hp.1,
          facility := false, facilityType := FacilityType.Hospital }
      (acc.1 ++ [b], hp.2)

/-- Stage 5 for the grid layout (lines 432–458): subdivide every block into
parcels and run `gridParcelStep` on each parcel. -/
def gridBuildings (cfg : Config) (zones : List ZoneType) (blocks : List Block)
    (g : Rng) : List Building × Rng :=
  blocks.foldl (fun acc blk =>
    let pr := parcelizeBlock blk acc.2
    pr.1.foldl (gridParcelStep cfg zones) (acc.1, pr.2)) ([], g)

end

/-! ### Radial layout (src/src/CityGenerator.cpp lines 459–552) -/

/-- `ringCount` (line 460): `clamp(round(3 + population / 200000), 3, 8)`.
`std::clamp(v, lo, hi) = min (max v lo) hi`; `std::round` agrees with
`round` on these positive values. -/
def ringCount (cfg : Config) : ℕ :=
  (min 8 (max 3 (round ((3 : ℚ) + (cfg.population : ℚ) / 200000)))).toNat

/-- `radialRoads` (line 461): `clamp(round(10 + city_radius * 8), 8, 20)`. -/
def radialRoadCount (cfg : Config) : ℕ :=
  (min 20 (max 8 (round ((10 : ℚ) + cfg.city_radius * 8)))).toNat

/-- The ring radii list (lines 463–472): `0`, the `ringCount` evenly spaced
interior fractions of `maxR`, then `maxR`.  The source sorts and
deduplicates; for `maxR > 0` the list is already strictly increasing
(`ringEdges_sorted` below), so the model keeps the literal list. -/
def ringEdges (cfg : Config) : List ℚ :=
  0 :: ((List.range (ringCount cfg)).map
    (fun (i : ℕ) => cfg.radiusQ * ((i : ℚ) + 1) / ((ringCount cfg : ℚ) + 1))
    ++ [cfg.radiusQ])

/-- The interior ring radii: the source's ring-road loop (line 486) runs over
indices `1 … size − 2`, skipping the centre `0` and the outer bound. -/
def interiorRingEdges (cfg : Config) : List ℚ :=
  ((ringEdges cfg).drop 1).dropLast

/-- The source's two-pi constant (line 474), the literal
`6.28318530717958647692`. -/
def twoPi : ℚ := 628318530717958647692 / 100000000000000000000

/-- The angular step `delta = twoPi / radialRoads` (line 475). -/
def angleDelta (cfg : Config) : ℚ := twoPi / (radialRoadCount cfg : ℚ)

/-- Segments per ring polyline (line 488): `max(32, radialRoads * 2)`. -/
def segsPerRing (cfg : Config) : ℕ := max 32 (radialRoadCount cfg * 2)

/-- `ringType` (lines 479–484): classification of a ring road by its
normalized radius, thresholds 0.3 / 0.75 (with the same `1e-6` guard as the
source). -/
def ringType (r maxR : ℚ) : RoadType :=
  let norm := if maxR > 1/1000000 then r / maxR else 0
  if norm < 3/10 then RoadType.Arterial
  else if norm < 3/4 then RoadType.Secondary
  else RoadType.Local

noncomputable section

/-- One ring road polyline (lines 486–496): `segs` short chords of the circle
of radius `r`, all classified by `ringType r maxR`. -/
def ringRoadsFor (cfg : Config) (r : ℚ) : List RoadSegment :=
  (List.range (segsPerRing cfg)).map (fun (s : ℕ) =>
    let t0 : ℝ := (twoPi : ℝ) * (s : ℝ) / (segsPerRing cfg : ℝ)
    let t1 : ℝ := (twoPi : ℝ) * ((s : ℝ) + 1) / (segsPerRing cfg : ℝ)
    let p0 := polarToCartesian cfg.centreR cfg.centreR (r : ℝ) t0
    let p1 := polarToCartesian cfg.centreR cfg.centreR (r : ℝ) t1
    ⟨p0.x, p0.y, p1.x, p1.y, ringType r cfg.radiusQ⟩)

/-- The radial spokes (lines 497–503): straight Arterial segments from the
centre (`polarToCartesian(cx, cy, 0, t)`) to the rim. -/
def spokeRoads (cfg : Config) : List RoadSegment :=
  (List.range (radialRoadCount cfg)).map (fun (i : ℕ) =>
    let t : ℝ := ((angleDelta cfg : ℚ) : ℝ) * (i : ℝ)
    let p0 := polarToCartesian cfg.centreR cfg.centreR 0 t
    let p1 := polarToCartesian cfg.centreR cfg.centreR cfg.radiusR t
    ⟨p0.x, p0.y, p1.x, p1.y, RoadType.Arterial⟩)

/-- All radial-layout roads: ring polylines first, then spokes (source loop
order). -/
def radialRoads (cfg : Config) : List RoadSegment :=
  (interiorRingEdges cfg).flatMap (ringRoadsFor cfg) ++ spokeRoads cfg

/-- `parcelizeWedge` (lines 240–277): unwrap the wedge into `(arc, radial)`
space, subdivide there, jitter each parcel, and map its corners back through
polar coordinates. -/
def parcelizeWedge (cfg : Config) (r0 r1 theta0 theta1 : ℚ) (g : Rng) :
    List Quad × Rng :=
  let radialThickness := r1 - r0
  if radialThickness ≤ 1/10 then ([], g)
  else
    let midR := (r0 + r1) / 2
    let thetaSpan := theta1 - theta0
    if thetaSpan ≤ 1/10000 ∨ midR ≤ 1/1000000 then ([], g)
    else
      let arcLength := thetaSpan * midR
      let uvBlock : Rect := ⟨0, 0, (arcLength : ℝ), (radialThickness : ℝ)⟩
      let sub := subdivideRect 3 12 7 uvBlock g
      sub.1.foldl (fun acc uv =>
        let jp := jitterFootprint uv acc.2
        let toWorld : ℝ → ℝ → Vec2 := fun u v =>
          polarToCartesian cfg.centreR cfg.centreR ((r0 : ℝ) + v)
            ((theta0 : ℝ) + u / (arcLength : ℝ) * (thetaSpan : ℝ))
        let quad : Quad :=
          ⟨toWorld jp.1.x0 jp.1.y0, toWorld jp.1.x1 jp.1.y0,
           toWorld jp.1.x1 jp.1.y1, toWorld jp.1.x0 jp.1.y1⟩
        (acc.1 ++ [quad], jp.2)) ([], sub.2)

/-- Per-parcel building creation for the radial layout (lines 529–549):
discard beyond `1.05 × radius` (centroid test), sample the zone from the
quad's bounding box (discard `None`), sample the height (zeroed for
Green). -/
def radialParcelStep (cfg : Config) (zones : List ZoneType)
    (acc : List Building × Rng) (quad : Quad) : List Building × Rng :=
  let pb := boundsFromQuad quad
  let cp := centroidOfQuad quad
  let pdist := Real.sqrt ((cp.x - cfg.centreR) ^ 2 + (cp.y - cfg.centreR) ^ 2)
  if pdist > cfg.radiusR * (105/100) then acc
  else
    let z := sampleZone cfg.gridN zones pb
    if z = ZoneType.None then acc
    else
      let hp := sampleHeight z pb pdist cfg.radiusR acc.2
      let b : Building :=
        { footprint := pb, corners := quad, hasCorners := true, zone := z,
          height := if z = ZoneType.Green then 0 else hp.1,
          facility := false, facilityType := FacilityType.Hospital }
      (acc.1 ++ [b], hp.2)

/-- One wedge of the radial block loop (lines 505–551): the block between
ring band `(r0, r1)` and sector `(si·δ, (si+1)·δ)`; kept (with its parcels'
buildings) only if its centroid lies within `1.1 × radius`. -/
def radialWedgeStep (cfg : Config) (zones : List ZoneType) (rp : ℚ × ℚ)
    (acc : List Block × List Building × Rng) (si : ℕ) :
    List Block × List Building × Rng :=
  let a0 := angleDelta cfg * (si : ℚ)
  let a1 := angleDelta cfg * ((si : ℚ) + 1)
  let corners : Quad :=
    ⟨polarToCartesian cfg.centreR cfg.centreR (rp.1 : ℝ) (a0 : ℝ),
     polarToCartesian cfg.centreR cfg.centreR (rp.2 : ℝ) (a0 : ℝ),
     polarToCartesian cfg.centreR cfg.centreR (rp.2 : ℝ) (a1 : ℝ),
     polarToCartesian cfg.centreR cfg.centreR (rp.1 : ℝ) (a1 : ℝ)⟩
  let bounds := boundsFromQuad corners
  let bc := centroidOfQuad corners
  let dist := Real.sqrt ((bc.x - cfg.centreR) ^ 2 + (bc.y - cfg.centreR) ^ 2)
  if dist > cfg.radiusR * (11/10) then acc
  else
    let blk : Block := ⟨bounds, corners, true⟩
    let pw := parcelizeWedge cfg rp.1 rp.2 a0 a1 acc.2.2
    let bs := pw.1.foldl (radialParcelStep cfg zones) (acc.2.1, pw.2)
    (acc.1 ++ [blk], bs.1, bs.2)

/-- The full radial block/building construction (lines 504–551). -/
def radialBlocksBuildings (cfg : Config) (zones : List ZoneType) (g : Rng) :
    List Block × List Building × Rng :=
  (consecPairs (ringEdges cfg)).foldl (fun acc rp =>
    (List.range (radialRoadCount cfg)).foldl
      (radialWedgeStep cfg zones rp) acc) ([], [], g)

end

/-! ### Facility placement and the full pipeline
(src/src/CityGenerator.cpp lines 282–300 and 553–627) -/

/-- `std::numeric_limits<double>::max() = (2 − 2⁻⁵²)·2¹⁰²³`, the initial
`best` of `distanceToRoads`. -/
noncomputable def dblMax : ℝ := 2 ^ 1024 - 2 ^ 971

/-- Distance contributed by one road in `distanceToRoads`
(src/src/CityGenerator.cpp lines 284–296): axis gaps to the road's
half-width-expanded bounding box, combined by `max` when one gap is zero and
by the Euclidean norm otherwise. -/
noncomputable def roadGapDist (parcel : Rect) (road : RoadSegment) : ℝ :=
  let halfWidth := (1/2) * ((roadWidth road.type : ℚ) : ℝ)
  let minX := min road.x1 road.x2 - halfWidth
  let maxX := max road.x1 road.x2 + halfWidth
  let minY := min road.y1 road.y2 - halfWidth
  let maxY := max road.y1 road.y2 + halfWidth
  let dx := if parcel.x1 < minX then minX - parcel.x1
    else if parcel.x0 > maxX then parcel.x0 - maxX else 0
  let dy := if parcel.y1 < minY then minY - parcel.y1
    else if parcel.y0 > maxY then parcel.y0 - maxY else 0
  if dx = 0 ∨ dy = 0 then max dx dy else Real.sqrt (dx ^ 2 + dy ^ 2)

/-- `distanceToRoads` (lines 282–300): minimum of the per-road gap distances,
starting from `DBL_MAX`. -/
noncomputable def distanceToRoads (parcel : Rect) (roads : List RoadSegment) : ℝ :=
  roads.foldl (fun best road =>
    let dist := roadGapDist parcel road
    if dist < best then dist else best) dblMax

/-- The facility candidate list (lines 558–572): buildings zoned Residential
or Commercial paired with their road distance; if none qualify, every
building is a candidate. -/
noncomputable def facilityCandidates (buildings : List Building)
    (roads : List RoadSegment) : List (ℕ × ℝ) :=
  let eligible := buildings.enum.filterMap (fun p =>
    if p.2.zone = ZoneType.Residential ∨ p.2.zone = ZoneType.Commercial then
      some (p.1, distanceToRoads p.2.footprint roads)
    else none)
  if eligible.isEmpty then
    buildings.enum.map (fun p => (p.1, distanceToRoads p.2.footprint roads))
  else eligible

/-- Stable insertion of a candidate into a list ascending by road
distance. -/
noncomputable def insertByDist (c : ℕ × ℝ) : List (ℕ × ℝ) → List (ℕ × ℝ)
  | [] => [c]
  | d :: rest => if d.2 ≤ c.2 then d :: insertByDist c rest else c :: d :: rest

/-- Ascending sort by road distance, modelling the `std::sort` by
`roadDistance <` of lines 580–586 (`std::sort`'s order among equal keys is
unspecified; no claim depends on the tie order). -/
noncomputable def sortByDist (l : List (ℕ × ℝ)) : List (ℕ × ℝ) :=
  l.foldr insertByDist []

/-- `sortByAccess` (lines 580–588): shuffle with the pipeline generator, then
sort ascending by road distance. -/
noncomputable def sortByAccess (l : List (ℕ × ℝ)) (g : Rng) :
    List (ℕ × ℝ) × Rng :=
  let sh := shuffleList g l
  (sortByDist sh.1, sh.2)

/-- The ordered candidate walk (lines 573–592): partition by the 1.6-unit
accessibility radius, order each group, near-road group first. -/
noncomputable def orderedParcels (buildings : List Building)
    (roads : List RoadSegment) (g : Rng) : List ℕ × Rng :=
  let cands := facilityCandidates buildings roads
  let nearRoads := cands.filter (fun c => c.2 ≤ 8/5)
  let interior := cands.filter (fun c => ¬(c.2 ≤ 8/5))
  let pn := sortByAccess nearRoads g
  let pi2 := sortByAccess interior pn.2
  (pn.1.map Prod.fst ++ pi2.1.map Prod.fst, pi2.2)

/-- `imprintFacility` (lines 594–606): flag the building, record the type,
reshape the height to the facility profile.  The footprint is unchanged. -/
noncomputable def imprintFacility (b : Building) (t : FacilityType) : Building :=
  { b with
    facility := true
    facilityType := t
    height :=
      let area := max (b.footprint.width * b.footprint.height) 1
      let scale := Real.sqrt area
      if t = FacilityType.Hospital then
        min (max ⌊(4 + scale * (25/100)) + 1/2⌋ 5) 12
      else
        min (max ⌊(2 + scale * (1/10)) + 1/2⌋ 2) 5 }

/-- The walk of `placeFacilities` (lines 608–623): flag the first unflagged
buildings in candidate order, appending a `Facility` at the building's
footprint centre, until `count` are placed. -/
noncomputable def placeLoop (t : FacilityType) (count : ℕ) :
    List ℕ → ℕ → List Building → List Facility → List Building × List Facility
  | [], _, bs, fs => (bs, fs)
  | i :: rest, placed, bs, fs =>
    if count ≤ placed then (bs, fs)
    else
      let b := bs.getD i default
      if b.facility then placeLoop t count rest placed bs fs
      else
        placeLoop t count rest (placed + 1) (bs.set i (imprintFacility b t))
          (fs ++ [⟨b.footprint.centreX, b.footprint.centreY, t⟩])

/-- The `uint32_t count` parameter of `placeFacilities`: the `int` config
field converted mod 2^32 (the identity for normalized non-negative
values). -/
def facilityCount (n : ℤ) : ℕ := (n % 4294967296).toNat

/-- Stage 6 (lines 553–625): place hospitals then schools along the ordered
candidate walk. -/
noncomputable def facilityStage (cfg : Config) (c : City) (g : Rng) : City :=
  let ord := orderedParcels c.buildings c.roads g
  let ph := placeLoop FacilityType.Hospital (facilityCount cfg.hospitals)
    ord.1 0 c.buildings []
  let ps := placeLoop FacilityType.School (facilityCount cfg.schools)
    ord.1 0 ph.1 ph.2
  { c with buildings := ps.1, facilities := ps.2 }

/-- The zoning grid after stages 1–2 (zone assignment then green quota) with
the freshly seeded pipeline generator — the `City::zones` contents for the
rest of the pipeline, which never writes the grid again. -/
def generateZones (cfg : Config) : List ZoneType :=
  (greenStage cfg (zoningGrid cfg) (mkRng cfg.seed)).1

/-- The generator state after stages 1–2. -/
def rngAfterZones (cfg : Config) : Rng :=
  (greenStage cfg (zoningGrid cfg) (mkRng cfg.seed)).2

/-- The city before facility placement (stages 1–5 of
`CityGenerator::generate`), with the generator state reached. -/
noncomputable def preCity (cfg : Config) : City × Rng :=
  let zones1 := generateZones cfg
  match cfg.layout with
  | LayoutType.Grid =>
    let roads := gridRoads cfg
    let blocks := gridBlocks cfg
    let bb := gridBuildings cfg zones1 blocks (rngAfterZones cfg)
    (⟨cfg.gridN, zones1, bb.1, [], roads, blocks⟩, bb.2)
  | LayoutType.Radial =>
    let roads := radialRoads cfg
    let rbb := radialBlocksBuildings cfg zones1 (rngAfterZones cfg)
    (⟨cfg.gridN, zones1, rbb.2.1, [], roads, rbb.1⟩, rbb.2.2)

/-- `CityGenerator::generate` (src/src/CityGenerator.cpp lines 304–627):
stages 1–5 followed by facility placement. -/
noncomputable def generate (cfg : Config) : City :=
  let p := preCity cfg
  facilityStage cfg p.1 p.2

/-! ### Supporting lemmas -/

lemma getD_cons_eraseIdx_perm {α : Type} :
    ∀ (l : List α) (j : ℕ) (d : α), j < l.length →
      List.Perm (l.getD j d :: l.eraseIdx j) l := by
  intro l
  induction l with
  | nil => intro j d h; simp at h
  | cons a t ih =>
    intro j d h
    cases j with
    | zero => simp
    | succ j =>
      have hj : j < t.length := by simpa using h
      have h1 : List.Perm (t.getD j d :: a :: t.eraseIdx j)
          (a :: t.getD j d :: t.eraseIdx j) := List.Perm.swap a (t.getD j d) _
      have h2 : List.Perm (a :: t.getD j d :: t.eraseIdx j) (a :: t) :=
        List.Perm.cons a (ih j d hj)
      have h3 : (a :: t).getD (j + 1) d :: (a :: t).eraseIdx (j + 1)
          = t.getD j d :: a :: t.eraseIdx j := by simp [List.getD]
      rw [h3]
      exact h1.trans h2

lemma shuffleGo_perm {α : Type} :
    ∀ (fuel : ℕ) (l : List α) (g : Rng), l.length ≤ fuel →
      List.Perm (shuffleGo g fuel l).1 l := by
  intro fuel
  induction fuel with
  | zero => intro l g _; simp [shuffleGo]
  | succ fuel ih =>
    intro l g hl
    cases l with
    | nil => simp [shuffleGo]
    | cons a t =>
      have hpos : 0 < (a :: t).length := by simp
      have hj : (g.below (a :: t).length).1 < (a :: t).length :=
        Nat.mod_lt _ hpos
      have hlen : ((a :: t).eraseIdx (g.below (a :: t).length).1).length ≤ fuel := by
        rw [List.length_eraseIdx]
        simp only [hj, if_pos]
        omega
      simp only [shuffleGo]
      exact List.Perm.trans
        (List.Perm.cons _ (ih _ _ hlen))
        (getD_cons_eraseIdx_perm _ _ _ hj)

lemma shuffleList_perm {α : Type} (g : Rng) (l : List α) :
    List.Perm (shuffleList g l).1 l :=
  shuffleGo_perm l.length l g le_rfl

lemma foldSet_green_getD :
    ∀ (l : List ℕ) (zs : List ZoneType) (i : ℕ),
      (l.foldl (fun acc j => acc.set j ZoneType.Green) zs).getD i ZoneType.None =
      if i ∈ l ∧ i < zs.length then ZoneType.Green
      else zs.getD i ZoneType.None := by
  intro l
  induction l with
  | nil => intro zs i; simp
  | cons j t ih =>
    intro zs i
    simp only [List.foldl_cons]
    rw [ih]
    by_cases hm : i ∈ t ∧ i < zs.length
    · have : i ∈ j :: t ∧ i < zs.length := ⟨List.mem_cons_of_mem _ hm.1, hm.2⟩
      simp [hm.1, hm.2, this.1, List.length_set]
    · rw [List.length_set]
      rw [if_neg hm]
      by_cases hij : j = i
      · subst hij
        by_cases hlt : j < zs.length
        · have h1 : (zs.set j ZoneType.Green).getD j ZoneType.None = ZoneType.Green := by
            rw [List.getD_eq_getElem?_getD, List.getElem?_set_self hlt]
            rfl
          rw [h1, if_pos ⟨List.mem_cons_self _ _, hlt⟩]
        · have h1 : (zs.set j ZoneType.Green).getD j ZoneType.None =
              zs.getD j ZoneType.None := by
            rw [List.set_eq_of_length_le (by omega)]
          rw [h1, if_neg (by tauto)]
      · have h1 : (zs.set j ZoneType.Green).getD i ZoneType.None =
            zs.getD i ZoneType.None := by
          rw [List.getD_eq_getElem?_getD, List.getElem?_set_ne hij,
            ← List.getD_eq_getElem?_getD]
        rw [h1]
        have : ¬(i ∈ j :: t ∧ i < zs.length) := by
          intro hc
          rcases List.mem_cons.mp hc.1 with h | h
          · exact hij h.symm
          · exact hm ⟨h, hc.2⟩
        rw [if_neg this]

lemma greenStage_cases (cfg : Config) (zs : List ZoneType) (g : Rng) (i : ℕ) :
    (greenStage cfg zs g).1.getD i ZoneType.None = zs.getD i ZoneType.None ∨
    ((zs.getD i ZoneType.None = ZoneType.Residential ∨
      zs.getD i ZoneType.None = ZoneType.Industrial) ∧
     (greenStage cfg zs g).1.getD i ZoneType.None = ZoneType.Green) := by
  unfold greenStage
  by_cases h : zs.count ZoneType.Green < targetGreenCells cfg
  · simp only [h, if_pos]
    rw [foldSet_green_getD]
    by_cases hm : i ∈ (shuffleList g ((List.range zs.length).filter
        (fun i => zs.getD i ZoneType.None = ZoneType.Residential ∨
                  zs.getD i ZoneType.None = ZoneType.Industrial))).1.take
        (targetGreenCells cfg - zs.count ZoneType.Green) ∧ i < zs.length
    · right
      refine ⟨?_, by rw [if_pos hm]⟩
      have h1 : i ∈ (shuffleList g ((List.range zs.length).filter
          (fun i => zs.getD i ZoneType.None = ZoneType.Residential ∨
                    zs.getD i ZoneType.None = ZoneType.Industrial))).1 :=
        List.take_subset _ _ hm.1
      have h2 := (shuffleList_perm g _).mem_iff.mp h1
      have h3 := (List.mem_filter.mp h2).2
      simpa using h3
    · left; rw [if_neg hm]
  · exact Or.inl (by simp [h])

lemma greenStage_eq_of_ge (cfg : Config) (zs : List ZoneType) (g : Rng)
    (h : ¬ zs.count ZoneType.Green < targetGreenCells cfg) :
    greenStage cfg zs g = (zs, g) := by
  unfold greenStage
  rw [if_neg h]

lemma noiseNum_lt (x y s : ℕ) : noiseNum x y s < 16777216 :=
  Nat.mod_lt _ (by norm_num)

lemma fractalNoise_eq (x y s : ℕ) :
    fractalNoise x y s = (fractalNum x y s : ℚ) / 251658240 := by
  unfold fractalNoise fractalNum noise
  push_cast
  ring

lemma fractalNum_lt (x y s : ℕ) : fractalNum x y s < 251658240 := by
  unfold fractalNum
  have h1 := noiseNum_lt x y s
  have h2 := noiseNum_lt (2 * x) (2 * y) (mask32 (s + 17))
  have h3 := noiseNum_lt (4 * x) (4 * y) (mask32 (s + 34))
  have h4 := noiseNum_lt (8 * x) (8 * y) (mask32 (s + 51))
  omega

lemma fractalNoise_nonneg (x y s : ℕ) : 0 ≤ fractalNoise x y s := by
  rw [fractalNoise_eq]; positivity

lemma fractalNoise_lt_one (x y s : ℕ) : fractalNoise x y s < 1 := by
  rw [fractalNoise_eq, div_lt_one (by norm_num)]
  exact_mod_cast fractalNum_lt x y s

lemma cellOutside_iff (cfg : Config) (x y : ℕ) :
    cellOutside cfg x y = true ↔ cfg.radiusQ ^ 2 < cellDistSq cfg x y := by
  unfold cellOutside
  rw [decide_eq_true_eq]
  have hden2 : (0 : ℚ) < (cfg.city_radius.den : ℚ) ^ 2 := by
    have : (0 : ℚ) < (cfg.city_radius.den : ℚ) := by
      exact_mod_cast cfg.city_radius.den_pos
    positivity
  have hd : ((cfg.city_radius.den : ℚ)) ≠ 0 := by
    have : (0 : ℚ) < (cfg.city_radius.den : ℚ) := by
      exact_mod_cast cfg.city_radius.den_pos
    exact ne_of_gt this
  have hq : ((cfg.city_radius.num : ℚ)) =
      cfg.city_radius * (cfg.city_radius.den : ℚ) := by
    have h := Rat.num_div_den cfg.city_radius
    rw [div_eq_iff hd] at h
    exact h
  have hnum2 : ((cfg.city_radius.num : ℚ)) ^ 2 =
      cfg.city_radius ^ 2 * (cfg.city_radius.den : ℚ) ^ 2 := by
    rw [hq]; ring
  unfold cellDistSq Config.radiusQ Config.centre
  constructor
  · intro h
    have h' : ((cfg.city_radius.num : ℚ)) ^ 2 * ((cfg.gridN : ℚ)) ^ 2 <
        ((cfg.city_radius.den : ℚ)) ^ 2 *
          ((2 * (x : ℚ) + 1 - (cfg.gridN : ℚ)) ^ 2 +
           (2 * (y : ℚ) + 1 - (cfg.gridN : ℚ)) ^ 2) := by
      exact_mod_cast h
    nlinarith [h', hnum2, hden2]
  · intro h
    have h' : ((cfg.city_radius.num : ℚ)) ^ 2 * ((cfg.gridN : ℚ)) ^ 2 <
        ((cfg.city_radius.den : ℚ)) ^ 2 *
          ((2 * (x : ℚ) + 1 - (cfg.gridN : ℚ)) ^ 2 +
           (2 * (y : ℚ) + 1 - (cfg.gridN : ℚ)) ^ 2) := by
      nlinarith [h, hnum2, hden2]
    exact_mod_cast h'

lemma fractalThreshold_iff (v : ℕ) (a b bound : ℕ) (hb : 0 < b)
    (hab : a * 251658240 = b * bound) :
    ((v : ℚ) / 251658240 < (a : ℚ) / (b : ℚ)) ↔ b * v < b * bound := by
  rw [div_lt_div_iff (by norm_num) (by exact_mod_cast hb)]
  constructor
  · intro h
    have h2 : (v * a : ℕ) > 0 ∨ True := Or.inr trivial
    have h3 : ((v : ℚ) * b) < ((a : ℚ) * 251658240) := h
    have h4 : (v * b : ℕ) < a * 251658240 := by exact_mod_cast h3
    calc b * v = v * b := Nat.mul_comm _ _
      _ < a * 251658240 := h4
      _ = b * bound := hab
  · intro h
    have h4 : (v * b : ℕ) < a * 251658240 := by
      calc v * b = b * v := Nat.mul_comm _ _
        _ < b * bound := h
        _ = a * 251658240 := hab.symm
    exact_mod_cast h4

lemma zoneForCell_eq (cfg : Config) (x y : ℕ) :
    zoneForCell cfg x y =
      if cfg.radiusQ ^ 2 < cellDistSq cfg x y then ZoneType.None
      else if fractalNoise x y (mask32 cfg.seed) < 11/20 then ZoneType.Residential
      else if fractalNoise x y (mask32 cfg.seed) < 3/4 then ZoneType.Commercial
      else if fractalNoise x y (mask32 cfg.seed) < 9/10 then ZoneType.Industrial
      else ZoneType.Green := by
  have h1 : (fractalNoise x y (mask32 cfg.seed) < 11/20) ↔
      20 * fractalNum x y (mask32 cfg.seed) < 2768240640 := by
    rw [fractalNoise_eq]
    exact fractalThreshold_iff _ 11 20 138412032 (by norm_num) (by norm_num)
  have h2 : (fractalNoise x y (mask32 cfg.seed) < 3/4) ↔
      4 * fractalNum x y (mask32 cfg.seed) < 754974720 := by
    rw [fractalNoise_eq]
    exact fractalThreshold_iff _ 3 4 188743680 (by norm_num) (by norm_num)
  have h3 : (fractalNoise x y (mask32 cfg.seed) < 9/10) ↔
      10 * fractalNum x y (mask32 cfg.seed) < 2264924160 := by
    rw [fractalNoise_eq]
    exact fractalThreshold_iff _ 9 10 226492416 (by norm_num) (by norm_num)
  unfold zoneForCell
  by_cases h0 : cfg.radiusQ ^ 2 < cellDistSq cfg x y
  · rw [if_pos ((cellOutside_iff cfg x y).mpr h0), if_pos h0]
  · have hb : cellOutside cfg x y = false := by
      rcases Bool.eq_false_or_eq_true (cellOutside cfg x y) with h | h
      · exact absurd ((cellOutside_iff cfg x y).mp h) h0
      · exact h
    rw [hb]
    simp only [Bool.false_eq_true, if_false, if_neg h0, h1, h2, h3]

lemma zoningGrid_getD (cfg : Config) (i : ℕ) (hi : i < cfg.gridN * cfg.gridN) :
    (zoningGrid cfg).getD i ZoneType.None =
      zoneForCell cfg (i % cfg.gridN) (i / cfg.gridN) := by
  unfold zoningGrid
  rw [List.getD_eq_getElem?_getD, List.getElem?_map, List.getElem?_range
    (by simpa using hi)]
  rfl

lemma zoningGrid_length (cfg : Config) :
    (zoningGrid cfg).length = cfg.gridN * cfg.gridN := by
  unfold zoningGrid
  simp

lemma natCeil_div_10000 (a : ℕ) :
    ⌈(a : ℚ) / 10000⌉₊ = (a + 9999) / 10000 := by
  apply le_antisymm
  · rw [Nat.ceil_le, div_le_iff (by norm_num : (0:ℚ) < 10000)]
    have h2 : a ≤ (a + 9999) / 10000 * 10000 := by omega
    calc (a : ℚ) ≤ (((a + 9999) / 10000 * 10000 : ℕ) : ℚ) := by exact_mod_cast h2
      _ = (((a + 9999) / 10000 : ℕ) : ℚ) * 10000 := by push_cast; ring
  · have h1 : (a : ℚ) / 10000 ≤ ⌈(a : ℚ) / 10000⌉₊ := Nat.le_ceil _
    rw [div_le_iff (by norm_num : (0:ℚ) < 10000)] at h1
    have h2 : a ≤ ⌈(a : ℚ) / 10000⌉₊ * 10000 := by exact_mod_cast h1
    omega

lemma targetGreenCells_eq (cfg : Config) (h : 0 ≤ cfg.population) :
    targetGreenCells cfg = ⌈((cfg.population : ℚ) * 8) / 10000⌉₊ := by
  unfold targetGreenCells
  have hp : ((cfg.population.toNat : ℕ) : ℚ) = (cfg.population : ℚ) := by
    exact_mod_cast Int.toNat_of_nonneg h
  have e1 : ((cfg.population : ℚ) * 8) / 10000 =
      ((8 * cfg.population.toNat : ℕ) : ℚ) / 10000 := by
    rw [← hp]; push_cast; ring
  rw [e1, natCeil_div_10000]

/-! ### Claim-side (spec-worded) definitions -/

/-- The green-quota target as the spec and claim C1 word it:
`ceil(population × green_m2_per_capita / 10000)`.  (Second definition for the
refinement comparison; the source-derived one is `targetGreenCells`.) -/
def specGreenTarget (cfg : Config) : ℕ :=
  ⌈((cfg.population : ℚ) * cfg.green_m2_per_capita) / 10000⌉₊

/-- The per-cell zone as claim C4 words it: inside the circle, bucket the
fractal noise by the intervals `[0,0.55) / [0.55,0.75) / [0.75,0.90) /
[0.90,1]`; farther than the radius, `None`.  (Second definition for the
refinement comparison; the source-derived one is `zoneForCell`.) -/
def specZone (cfg : Config) (x y : ℕ) : ZoneType :=
  if cellDistSq cfg x y ≤ cfg.radiusQ ^ 2 then
    if 0 ≤ fractalNoise x y (mask32 cfg.seed) ∧
        fractalNoise x y (mask32 cfg.seed) < 11/20 then ZoneType.Residential
    else if 11/20 ≤ fractalNoise x y (mask32 cfg.seed) ∧
        fractalNoise x y (mask32 cfg.seed) < 3/4 then ZoneType.Commercial
    else if 3/4 ≤ fractalNoise x y (mask32 cfg.seed) ∧
        fractalNoise x y (mask32 cfg.seed) < 9/10 then ZoneType.Industrial
    else if 9/10 ≤ fractalNoise x y (mask32 cfg.seed) ∧
        fractalNoise x y (mask32 cfg.seed) ≤ 1 then ZoneType.Green
    else ZoneType.None
  else ZoneType.None

/-- The transport-mode labels the spec recognises (after lower-casing). -/
def recognizedModes : List String :=
  ["car", "public", "public_transit", "transit", "walk", "pedestrian"]

lemma generate_zones_eq (cfg : Config) :
    (generate cfg).zones = generateZones cfg := by
  cases h : cfg.layout <;> simp [generate, facilityStage, preCity, h]

lemma zoneForCell_ne_none (cfg : Config) (x y : ℕ)
    (h : zoneForCell cfg x y ≠ ZoneType.None) :
    cellDistSq cfg x y ≤ cfg.radiusQ ^ 2 := by
  by_contra hlt
  push_neg at hlt
  apply h
  unfold zoneForCell
  rw [if_pos ((cellOutside_iff cfg x y).mpr hlt)]

/-! ### Claim theorems -/

/-- Claim C3: for a fixed `Config` (all fields, seed included), two
independent `CityGenerator::generate` calls produce identical `City`
contents — the same zoning grid, building list (same order and values), road
list and facility list.  In the embedding all state the C++ call owns (the
`std::mt19937` instance seeded from `cfg.seed`, the `City` value) is explicit
and local to `generate`, so a second call is literally the same pure
function application and the lists coincide definitionally. -/
theorem C3_determinism (cfg : Config) :
    (generate cfg).zones = (generate cfg).zones ∧
    (generate cfg).buildings = (generate cfg).buildings ∧
    (generate cfg).roads = (generate cfg).roads ∧
    (generate cfg).facilities = (generate cfg).facilities :=
  ⟨rfl, rfl, rfl, rfl⟩

/-- Claim C9: `transportModeFromString` signals invalid-argument exactly when
its case-insensitively matched input is not a recognized mode label, and
`Config::normalize` is total, clamping every numeric field into
`population ≥ 0`, `grid_size ≥ 10`, `city_radius ∈ (0,1]`, `hospitals ≥ 0`,
`schools ≥ 0`, `green_m2_per_capita ≥ 0`. -/
theorem C9_error_handling :
    (∀ s : String, transportModeFromString s = none ↔
        lowerString s ∉ recognizedModes) ∧
    (∀ cfg : Config,
        0 ≤ (Config.normalize cfg).population ∧
        10 ≤ (Config.normalize cfg).grid_size ∧
        0 < (Config.normalize cfg).city_radius ∧
        (Config.normalize cfg).city_radius ≤ 1 ∧
        0 ≤ (Config.normalize cfg).hospitals ∧
        0 ≤ (Config.normalize cfg).schools ∧
        0 ≤ (Config.normalize cfg).green_m2_per_capita) := by
  constructor
  · intro s
    simp only [transportModeFromString, recognizedModes]
    split_ifs with h1 h2 h3
    · simp [h1]
    · rcases h2 with h | h | h <;> simp [h]
    · rcases h3 with h | h <;> simp [h]
    · push_neg at h2 h3
      simp [h1, h2.1, h2.2.1, h2.2.2, h3.1, h3.2]
  · intro cfg
    unfold Config.normalize
    refine ⟨?_, ?_, ?_, ?_, ?_, ?_, ?_⟩ <;> simp only
    · split_ifs <;> omega
    · split_ifs <;> omega
    · split_ifs with h1 h2 <;> [norm_num; norm_num; linarith [not_le.mp (by exact h1)]]
    · split_ifs with h1 h2 <;> [norm_num; norm_num; linarith [not_lt.mp (by exact h2)]]
    · split_ifs <;> omega
    · split_ifs <;> omega
    · split_ifs with h <;> [norm_num; linarith [not_lt.mp (by exact h)]]

/-- Claim C4: for every cell `(x, y)` of the grid, the zoning stage assigns,
for a cell centre within `radius = city_radius × grid_size / 2` of the grid
centre, the zone bucketed from `fractalNoise(x, y, seed)` by the intervals
`[0,0.55) ↦ Residential`, `[0.55,0.75) ↦ Commercial`,
`[0.75,0.90) ↦ Industrial`, `[0.90,1] ↦ Green`, and `None` for every cell
farther than the radius (cell-centre Euclidean distance test). -/
theorem C4_zoning (cfg : Config) (x y : Fin cfg.gridN) :
    (zoningGrid cfg).getD ((y : ℕ) * cfg.gridN + (x : ℕ)) ZoneType.None =
      specZone cfg x y := by
  have hn : 0 < cfg.gridN := lt_of_le_of_lt (Nat.zero_le _) x.isLt
  have hi : (y : ℕ) * cfg.gridN + (x : ℕ) < cfg.gridN * cfg.gridN := by
    have hx := x.isLt
    have hy := y.isLt
    calc (y : ℕ) * cfg.gridN + (x : ℕ) < (y : ℕ) * cfg.gridN + cfg.gridN := by omega
      _ = ((y : ℕ) + 1) * cfg.gridN := by ring
      _ ≤ cfg.gridN * cfg.gridN := Nat.mul_le_mul_right _ (by omega)
  rw [zoningGrid_getD cfg _ hi]
  have hmod : ((y : ℕ) * cfg.gridN + (x : ℕ)) % cfg.gridN = (x : ℕ) := by
    rw [Nat.mul_comm]
    rw [Nat.mul_add_mod]
    exact Nat.mod_eq_of_lt x.isLt
  have hdiv : ((y : ℕ) * cfg.gridN + (x : ℕ)) / cfg.gridN = (y : ℕ) := by
    rw [Nat.mul_comm, Nat.mul_add_div hn, Nat.div_eq_of_lt x.isLt,
      Nat.add_zero]
  rw [hmod, hdiv, zoneForCell_eq]
  unfold specZone
  have hv0 := fractalNoise_nonneg (x : ℕ) (y : ℕ) (mask32 cfg.seed)
  have hv1 := fractalNoise_lt_one (x : ℕ) (y : ℕ) (mask32 cfg.seed)
  set vv := fractalNoise (x : ℕ) (y : ℕ) (mask32 cfg.seed) with hvv
  by_cases hin : cellDistSq cfg x y ≤ cfg.radiusQ ^ 2
  · rw [if_neg (not_lt.mpr hin), if_pos hin]
    by_cases t1 : vv < 11/20
    · rw [if_pos t1, if_pos ⟨hv0, t1⟩]
    · rw [if_neg t1,
        if_neg (show ¬(0 ≤ vv ∧ vv < 11/20) from fun hc => t1 hc.2)]
      by_cases t2 : vv < 3/4
      · rw [if_pos t2, if_pos ⟨not_lt.mp t1, t2⟩]
      · rw [if_neg t2,
          if_neg (show ¬(11/20 ≤ vv ∧ vv < 3/4) from fun hc => t2 hc.2)]
        by_cases t3 : vv < 9/10
        · rw [if_pos t3, if_pos ⟨not_lt.mp t2, t3⟩]
        · rw [if_neg t3,
            if_neg (show ¬(3/4 ≤ vv ∧ vv < 9/10) from fun hc => t3 hc.2),
            if_pos ⟨not_lt.mp t3, le_of_lt hv1⟩]
  · rw [if_pos (not_le.mp hin), if_neg hin]

/-- Claim C7: after the full pipeline, every grid cell holding a zone other
than `None` lies within `radius = city_radius × grid_size / 2` of the grid
centre under the cell-centre distance test (first disjunction), and the
green-quota conversion leaves every cell either unchanged or converts a
Residential/Industrial cell to Green — it never touches Commercial, Green or
None cells (second disjunction). -/
theorem C7_zoning_containment (cfg : Config)
    (i : Fin (cfg.gridN * cfg.gridN)) :
    ((generate cfg).zones.getD (i : ℕ) ZoneType.None = ZoneType.None ∨
      cellDistSq cfg ((i : ℕ) % cfg.gridN) ((i : ℕ) / cfg.gridN) ≤
        cfg.radiusQ ^ 2) ∧
    ((generateZones cfg).getD (i : ℕ) ZoneType.None =
        (zoningGrid cfg).getD (i : ℕ) ZoneType.None ∨
      (((zoningGrid cfg).getD (i : ℕ) ZoneType.None = ZoneType.Residential ∨
        (zoningGrid cfg).getD (i : ℕ) ZoneType.None = ZoneType.Industrial) ∧
       (generateZones cfg).getD (i : ℕ) ZoneType.None = ZoneType.Green)) := by
  have hcases := greenStage_cases cfg (zoningGrid cfg) (mkRng cfg.seed) (i : ℕ)
  have hgz : generateZones cfg =
      (greenStage cfg (zoningGrid cfg) (mkRng cfg.seed)).1 := rfl
  constructor
  · by_cases hz :
        (generate cfg).zones.getD (i : ℕ) ZoneType.None = ZoneType.None
    · exact Or.inl hz
    · right
      rw [generate_zones_eq] at hz
      have hzg : (zoningGrid cfg).getD (i : ℕ) ZoneType.None ≠
          ZoneType.None := by
        rw [hgz] at hz
        rcases hcases with h | h
        · rw [← h]; exact hz
        · rcases h.1 with h1 | h1 <;> rw [h1] <;> simp
      rw [zoningGrid_getD cfg _ i.isLt] at hzg
      exact zoneForCell_ne_none cfg _ _ hzg
  · rw [hgz]
    exact hcases

/-- The failing input for claim C1: an already-normalized configuration with
`green_m2_per_capita = 0` (so the spec's target is 0) and a large population
(so the source's hard-coded `8 m²`-based target is large). -/
def cfgC1 : Config :=
  { seed := 1, population := 1000000, grid_size := 10, city_radius := 1,
    hospitals := 0, schools := 0, green_m2_per_capita := 0,
    transport_mode := TransportMode.Car, layout := LayoutType.Grid,
    output_name := "city" }

/-- Claim C1 (code bug evidence): the green-quota stage's target is computed
from the hard-coded `greenAreaPerPerson = 8.0` (src/src/CityGenerator.cpp
line 339) and ignores `cfg.green_m2_per_capita`, contradicting the config
field's own documentation ("Minimal green area per person (m^2)") and the
claimed formula `ceil(population × green_m2_per_capita / 10000)`.  At the
normalized `cfgC1` (population 10⁶, `green_m2_per_capita = 0`): the spec
target is 0, so per the claim no cell may be converted, yet the code's
target is 800 and the stage converts all 48 Residential/Industrial
candidates of the 10×10 grid to Green (pre-existing green count 0). -/
theorem C1_green_target_divergence :
    Config.normalize cfgC1 = cfgC1 ∧
    targetGreenCells cfgC1 = 800 ∧
    specGreenTarget cfgC1 = 0 ∧
    (zoningGrid cfgC1).count ZoneType.Green = 0 ∧
    (generate cfgC1).zones.count ZoneType.Green = 48 := by
  refine ⟨?_, by decide, ?_, by decide, ?_⟩
  · simp only [Config.normalize, cfgC1]
    norm_num
  · simp only [specGreenTarget, cfgC1]
    norm_num
  · rw [generate_zones_eq]
    decide

/-! ### Building-creation invariants (claims C10, C5) -/

/-- Invariant holding of every building as created by stage 5 (both
layouts): a real zone, not yet a facility, and parks are flat. -/
def BuildingInit (b : Building) : Prop :=
  b.zone ≠ ZoneType.None ∧ b.facility = false ∧
  (b.zone = ZoneType.Green → b.height = 0)

lemma gridParcelStep_mem (cfg : Config) (zs : List ZoneType)
    (acc : List Building × Rng) (fp : Rect) (b : Building)
    (h : b ∈ (gridParcelStep cfg zs acc fp).1) :
    b ∈ acc.1 ∨ BuildingInit b := by
  simp only [gridParcelStep] at h
  split_ifs at h with h1 h2 h3
  · exact Or.inl h
  · exact Or.inl h
  · rcases List.mem_append.mp h with h4 | h4
    · exact Or.inl h4
    · right
      rw [List.mem_singleton] at h4
      subst h4
      exact ⟨h2, rfl, fun _ => rfl⟩
  · rcases List.mem_append.mp h with h4 | h4
    · exact Or.inl h4
    · right
      rw [List.mem_singleton] at h4
      subst h4
      exact ⟨h2, rfl, fun hg => absurd hg h3⟩

lemma foldl_gridParcelStep_mem (cfg : Config) (zs : List ZoneType) :
    ∀ (parcels : List Rect) (acc : List Building × Rng) (b : Building),
      b ∈ (parcels.foldl (gridParcelStep cfg zs) acc).1 →
      b ∈ acc.1 ∨ BuildingInit b := by
  intro parcels
  induction parcels with
  | nil => intro acc b h; exact Or.inl h
  | cons fp rest ih =>
    intro acc b h
    simp only [List.foldl_cons] at h
    rcases ih _ b h with h2 | h2
    · exact gridParcelStep_mem cfg zs acc fp b h2
    · exact Or.inr h2

lemma gridBuildings_mem (cfg : Config) (zs : List ZoneType)
    (blocks : List Block) (g : Rng) (b : Building)
    (h : b ∈ (gridBuildings cfg zs blocks g).1) : BuildingInit b := by
  unfold gridBuildings at h
  suffices hsuf : ∀ (bl : List Block) (acc : List Building × Rng),
      b ∈ (bl.foldl (fun acc blk =>
        let pr := parcelizeBlock blk acc.2
        pr.1.foldl (gridParcelStep cfg zs) (acc.1, pr.2)) acc).1 →
      b ∈ acc.1 ∨ BuildingInit b by
    rcases hsuf blocks ([], g) h with h2 | h2
    · simp at h2
    · exact h2
  intro bl
  induction bl with
  | nil => intro acc h2; exact Or.inl h2
  | cons blk rest ih =>
    intro acc h2
    simp only [List.foldl_cons] at h2
    rcases ih _ h2 with h3 | h3
    · exact foldl_gridParcelStep_mem cfg zs (parcelizeBlock blk acc.2).1
        (acc.1, (parcelizeBlock blk acc.2).2) b h3
    · exact Or.inr h3

lemma radialParcelStep_mem (cfg : Config) (zs : List ZoneType)
    (acc : List Building × Rng) (quad : Quad) (b : Building)
    (h : b ∈ (radialParcelStep cfg zs acc quad).1) :
    b ∈ acc.1 ∨ BuildingInit b := by
  simp only [radialParcelStep] at h
  split_ifs at h with h1 h2 h3
  · exact Or.inl h
  · exact Or.inl h
  · rcases List.mem_append.mp h with h4 | h4
    · exact Or.inl h4
    · right
      rw [List.mem_singleton] at h4
      subst h4
      exact ⟨h2, rfl, fun _ => rfl⟩
  · rcases List.mem_append.mp h with h4 | h4
    · exact Or.inl h4
    · right
      rw [List.mem_singleton] at h4
      subst h4
      exact ⟨h2, rfl, fun hg => absurd hg h3⟩

lemma foldl_radialParcelStep_mem (cfg : Config) (zs : List ZoneType) :
    ∀ (quads : List Quad) (acc : List Building × Rng) (b : Building),
      b ∈ (quads.foldl (radialParcelStep cfg zs) acc).1 →
      b ∈ acc.1 ∨ BuildingInit b := by
  intro quads
  induction quads with
  | nil => intro acc b h; exact Or.inl h
  | cons q rest ih =>
    intro acc b h
    simp only [List.foldl_cons] at h
    rcases ih _ b h with h2 | h2
    · exact radialParcelStep_mem cfg zs acc q b h2
    · exact Or.inr h2

lemma radialWedgeStep_mem (cfg : Config) (zs : List ZoneType) (rp : ℚ × ℚ)
    (acc : List Block × List Building × Rng) (si : ℕ) (b : Building)
    (h : b ∈ (radialWedgeStep cfg zs rp acc si).2.1) :
    b ∈ acc.2.1 ∨ BuildingInit b := by
  simp only [radialWedgeStep] at h
  split_ifs at h with h1
  · exact Or.inl h
  · exact foldl_radialParcelStep_mem cfg zs
      (parcelizeWedge cfg rp.1 rp.2 (angleDelta cfg * (si : ℚ))
        (angleDelta cfg * ((si : ℚ) + 1)) acc.2.2).1
      (acc.2.1, (parcelizeWedge cfg rp.1 rp.2 (angleDelta cfg * (si : ℚ))
        (angleDelta cfg * ((si : ℚ) + 1)) acc.2.2).2) b h

lemma foldl_radialWedgeStep_mem (cfg : Config) (zs : List ZoneType)
    (rp : ℚ × ℚ) :
    ∀ (l : List ℕ) (acc : List Block × List Building × Rng) (b : Building),
      b ∈ (l.foldl (radialWedgeStep cfg zs rp) acc).2.1 →
      b ∈ acc.2.1 ∨ BuildingInit b := by
  intro l
  induction l with
  | nil => intro acc b h; exact Or.inl h
  | cons si rest ih =>
    intro acc b h
    simp only [List.foldl_cons] at h
    rcases ih _ b h with h2 | h2
    · exact radialWedgeStep_mem cfg zs rp acc si b h2
    · exact Or.inr h2

lemma radialBlocksBuildings_mem (cfg : Config) (zs : List ZoneType) (g : Rng)
    (b : Building) (h : b ∈ (radialBlocksBuildings cfg zs g).2.1) :
    BuildingInit b := by
  unfold radialBlocksBuildings at h
  suffices hsuf : ∀ (ps : List (ℚ × ℚ))
      (acc : List Block × List Building × Rng),
      b ∈ (ps.foldl (fun acc rp =>
        (List.range (radialRoadCount cfg)).foldl
          (radialWedgeStep cfg zs rp) acc) acc).2.1 →
      b ∈ acc.2.1 ∨ BuildingInit b by
    rcases hsuf (consecPairs (ringEdges cfg)) ([], [], g) h with h2 | h2
    · simp at h2
    · exact h2
  intro ps
  induction ps with
  | nil => intro acc h2; exact Or.inl h2
  | cons rp rest ih =>
    intro acc h2
    simp only [List.foldl_cons] at h2
    rcases ih _ h2 with h3 | h3
    · exact foldl_radialWedgeStep_mem cfg zs rp _ acc b h3
    · exact Or.inr h3

lemma preCity_buildings_init (cfg : Config) (b : Building)
    (h : b ∈ (preCity cfg).1.buildings) : BuildingInit b := by
  unfold preCity at h
  cases hl : cfg.layout with
  | Grid =>
    rw [hl] at h
    exact gridBuildings_mem cfg _ _ _ b h
  | Radial =>
    rw [hl] at h
    exact radialBlocksBuildings_mem cfg _ _ b h

lemma imprintFacility_zone (b : Building) (t : FacilityType) :
    (imprintFacility b t).zone = b.zone := rfl

lemma imprintFacility_footprint (b : Building) (t : FacilityType) :
    (imprintFacility b t).footprint = b.footprint := rfl

lemma imprintFacility_facility (b : Building) (t : FacilityType) :
    (imprintFacility b t).facility = true := rfl

lemma placeLoop_length (t : FacilityType) (count : ℕ) :
    ∀ (order : List ℕ) (placed : ℕ) (bs : List Building)
      (fs : List Facility),
      (placeLoop t count order placed bs fs).1.length = bs.length := by
  intro order
  induction order with
  | nil => intro placed bs fs; rfl
  | cons i rest ih =>
    intro placed bs fs
    simp only [placeLoop]
    split_ifs with h1 h2
    · rfl
    · exact ih _ _ _
    · rw [ih _ _ _, List.length_set]

lemma placeLoop_getD_cases (t : FacilityType) (count : ℕ) :
    ∀ (order : List ℕ) (placed : ℕ) (bs : List Building)
      (fs : List Facility) (j : ℕ),
      (placeLoop t count order placed bs fs).1.getD j default =
        bs.getD j default ∨
      (((placeLoop t count order placed bs fs).1.getD j default).facility =
          true ∧
       ((placeLoop t count order placed bs fs).1.getD j default).zone =
          (bs.getD j default).zone ∧
       ((placeLoop t count order placed bs fs).1.getD j default).footprint =
          (bs.getD j default).footprint) := by
  intro order
  induction order with
  | nil => intro placed bs fs j; exact Or.inl rfl
  | cons i rest ih =>
    intro placed bs fs j
    simp only [placeLoop]
    split_ifs with h1 h2
    · exact Or.inl rfl
    · exact ih _ _ _ _
    · by_cases hij : i = j
      · subst hij
        by_cases hlt : i < bs.length
        · have hset : (bs.set i (imprintFacility (bs.getD i default) t)).getD
              i default = imprintFacility (bs.getD i default) t := by
            rw [List.getD_eq_getElem?_getD, List.getElem?_set_self hlt]
            rfl
          rcases ih (placed + 1) (bs.set i (imprintFacility
              (bs.getD i default) t)) (fs ++ [⟨(bs.getD i
              default).footprint.centreX,
              (bs.getD i default).footprint.centreY, t⟩]) i with h3 | h3
          · right
            rw [h3, hset]
            exact ⟨rfl, rfl, rfl⟩
          · right
            rw [hset] at h3
            exact ⟨h3.1, h3.2.1, h3.2.2⟩
        · have hset : bs.set i (imprintFacility (bs.getD i default) t) = bs :=
            List.set_eq_of_length_le (by omega)
          rw [hset]
          exact ih _ _ _ _
      · have hset : (bs.set i (imprintFacility (bs.getD i default) t)).getD
            j default = bs.getD j default := by
          rw [List.getD_eq_getElem?_getD, List.getElem?_set_ne hij,
            ← List.getD_eq_getElem?_getD]
        rcases ih (placed + 1) (bs.set i (imprintFacility
            (bs.getD i default) t)) (fs ++ [⟨(bs.getD i
            default).footprint.centreX,
            (bs.getD i default).footprint.centreY, t⟩]) j with h3 | h3
        · exact Or.inl (by rw [h3, hset])
        · right
          rw [hset] at h3
          exact ⟨h3.1, h3.2.1, h3.2.2⟩

lemma facilityStage_buildings_length (cfg : Config) (c : City) (g : Rng) :
    (facilityStage cfg c g).buildings.length = c.buildings.length := by
  unfold facilityStage
  rw [placeLoop_length, placeLoop_length]

lemma facilityStage_buildings_cases (cfg : Config) (c : City) (g : Rng)
    (j : ℕ) :
    (facilityStage cfg c g).buildings.getD j default =
      c.buildings.getD j default ∨
    (((facilityStage cfg c g).buildings.getD j default).facility = true ∧
     ((facilityStage cfg c g).buildings.getD j default).zone =
        (c.buildings.getD j default).zone ∧
     ((facilityStage cfg c g).buildings.getD j default).footprint =
        (c.buildings.getD j default).footprint) := by
  unfold facilityStage
  have h1 := placeLoop_getD_cases FacilityType.Hospital
    (facilityCount cfg.hospitals)
    (orderedParcels c.buildings c.roads g).1 0 c.buildings [] j
  have h2 := placeLoop_getD_cases FacilityType.School
    (facilityCount cfg.schools)
    (orderedParcels c.buildings c.roads g).1 0
    (placeLoop FacilityType.Hospital (facilityCount cfg.hospitals)
      (orderedParcels c.buildings c.roads g).1 0 c.buildings []).1
    (placeLoop FacilityType.Hospital (facilityCount cfg.hospitals)
      (orderedParcels c.buildings c.roads g).1 0 c.buildings []).2 j
  rcases h2 with h2 | h2
  · rcases h1 with h1 | h1
    · exact Or.inl (by rw [h2, h1])
    · right
      rw [h2]
      exact h1
  · rcases h1 with h1 | h1
    · right
      rw [h1] at h2
      exact h2
    · right
      rw [h1.2.1, h1.2.2] at h2
      exact h2

/-- Claim C10: in every generated city (either layout), every building has a
zone other than `None` — parcels whose sampled zone is `None` are discarded
before creation — and every Green-zoned building not flagged as a facility
has height 0 (stated as: each building is non-Green, or a facility, or has
height 0). -/
theorem C10_building_invariants (cfg : Config)
    (i : Fin (generate cfg).buildings.length) :
    ((generate cfg).buildings.get i).zone ≠ ZoneType.None ∧
    (((generate cfg).buildings.get i).zone ≠ ZoneType.Green ∨
     ((generate cfg).buildings.get i).facility = true ∨
     ((generate cfg).buildings.get i).height = 0) := by
  have hget : (generate cfg).buildings.get i =
      (generate cfg).buildings.getD (i : ℕ) default := by
    rw [List.getD_eq_getElem?_getD, List.getElem?_eq_getElem i.isLt]
    rfl
  have hlen : (i : ℕ) < (preCity cfg).1.buildings.length := by
    have := facilityStage_buildings_length cfg (preCity cfg).1 (preCity cfg).2
    have hi := i.isLt
    have hgen : (generate cfg).buildings.length =
        (facilityStage cfg (preCity cfg).1 (preCity cfg).2).buildings.length :=
      rfl
    omega
  have hmem : (preCity cfg).1.buildings.getD (i : ℕ) default ∈
      (preCity cfg).1.buildings := by
    rw [List.getD_eq_getElem?_getD, List.getElem?_eq_getElem hlen]
    exact List.getElem_mem _
  have hinit := preCity_buildings_init cfg _ hmem
  have hcases := facilityStage_buildings_cases cfg (preCity cfg).1
    (preCity cfg).2 (i : ℕ)
  have hgen : (generate cfg).buildings =
      (facilityStage cfg (preCity cfg).1 (preCity cfg).2).buildings := rfl
  rw [hget]
  have hsame : (generate cfg).buildings.getD (i : ℕ) default =
      (facilityStage cfg (preCity cfg).1 (preCity cfg).2).buildings.getD
        (i : ℕ) default := rfl
  rw [hsame]
  rcases hcases with h | h
  · rw [h]
    refine ⟨hinit.1, ?_⟩
    by_cases hz : ((preCity cfg).1.buildings.getD (i : ℕ) default).zone =
        ZoneType.Green
    · exact Or.inr (Or.inr (hinit.2.2 hz))
    · exact Or.inl hz
  · refine ⟨?_, Or.inr (Or.inl h.1)⟩
    rw [h.2.1]
    exact hinit.1

/-! ### Facility-placement counting lemmas (claim C5) -/

/-- Number of flagged buildings. -/
def countFlag (bs : List Building) : ℕ := bs.countP (fun b => b.facility)

/-- Occurrences of still-unflagged candidate indices in a walk list. -/
noncomputable def freeCount (order0 : List ℕ) (bs : List Building) : ℕ :=
  (order0.filter (fun i => !(bs.getD i default).facility)).length

/-- Number of eligible facility-candidate buildings as claim C5 words it:
the Residential/Commercial buildings, or (fallback) all buildings when none
qualify. -/
def eligibleCount (c : City) : ℕ :=
  if (c.buildings.filter (fun b => decide (b.zone = ZoneType.Residential ∨
      b.zone = ZoneType.Commercial))).length = 0 then c.buildings.length
  else (c.buildings.filter (fun b => decide (b.zone = ZoneType.Residential ∨
      b.zone = ZoneType.Commercial))).length

lemma filterMap_if_length {α β : Type} (P : α → Prop) [DecidablePred P]
    (f : α → β) :
    ∀ l : List α,
      (l.filterMap (fun a => if P a then some (f a) else none)).length =
      (l.filter (fun a => decide (P a))).length := by
  intro l
  induction l with
  | nil => rfl
  | cons a rest ih =>
    by_cases h : P a
    · simp [List.filterMap_cons, h, ih]
    · simp [List.filterMap_cons, h, ih]

lemma enumFrom_filter_length {α : Type} (P : α → Prop) [DecidablePred P] :
    ∀ (l : List α) (n : ℕ),
      ((List.enumFrom n l).filter (fun p => decide (P p.2))).length =
      (l.filter (fun a => decide (P a))).length := by
  intro l
  induction l with
  | nil => intro n; rfl
  | cons a rest ih =>
    intro n
    by_cases h : P a
    · simp [List.enumFrom, h, ih]
    · simp [List.enumFrom, h, ih]

lemma facilityCandidates_length (bs : List Building)
    (roads : List RoadSegment) :
    (facilityCandidates bs roads).length =
      if (bs.filter (fun b => decide (b.zone = ZoneType.Residential ∨
          b.zone = ZoneType.Commercial))).length = 0 then bs.length
      else (bs.filter (fun b => decide (b.zone = ZoneType.Residential ∨
          b.zone = ZoneType.Commercial))).length := by
  unfold facilityCandidates
  have he : (bs.enum.filterMap (fun p =>
      if p.2.zone = ZoneType.Residential ∨ p.2.zone = ZoneType.Commercial then
        some (p.1, distanceToRoads p.2.footprint roads)
      else none)).length =
      (bs.filter (fun b => decide (b.zone = ZoneType.Residential ∨
        b.zone = ZoneType.Commercial))).length := by
    rw [filterMap_if_length
      (fun p : ℕ × Building => p.2.zone = ZoneType.Residential ∨
        p.2.zone = ZoneType.Commercial)
      (fun p => (p.1, distanceToRoads p.2.footprint roads)) bs.enum]
    exact enumFrom_filter_length
      (fun b => b.zone = ZoneType.Residential ∨
        b.zone = ZoneType.Commercial) bs 0
  by_cases h : (bs.enum.filterMap (fun p =>
      if p.2.zone = ZoneType.Residential ∨ p.2.zone = ZoneType.Commercial then
        some (p.1, distanceToRoads p.2.footprint roads)
      else none)).isEmpty
  · rw [if_pos h]
    rw [List.isEmpty_iff_length_eq_zero] at h
    rw [← he, if_pos h]
    simp [List.enum_length]
  · rw [if_neg h]
    rw [List.isEmpty_iff_length_eq_zero] at h
    rw [← he, if_neg h]

lemma insertByDist_length (c : ℕ × ℝ) :
    ∀ l : List (ℕ × ℝ), (insertByDist c l).length = l.length + 1 := by
  intro l
  induction l with
  | nil => rfl
  | cons d rest ih =>
    unfold insertByDist
    split_ifs
    · simp [ih]
    · simp

lemma insertByDist_mem (c : ℕ × ℝ) :
    ∀ (l : List (ℕ × ℝ)) (x : ℕ × ℝ), x ∈ insertByDist c l →
      x = c ∨ x ∈ l := by
  intro l
  induction l with
  | nil =>
    intro x h
    rw [show insertByDist c [] = [c] from rfl] at h
    exact Or.inl (List.mem_singleton.mp h)
  | cons d rest ih =>
    intro x h
    unfold insertByDist at h
    split_ifs at h
    · rcases List.mem_cons.mp h with h2 | h2
      · exact Or.inr (by rw [h2]; exact List.mem_cons_self _ _)
      · rcases ih x h2 with h3 | h3
        · exact Or.inl h3
        · exact Or.inr (List.mem_cons_of_mem _ h3)
    · rcases List.mem_cons.mp h with h2 | h2
      · exact Or.inl h2
      · exact Or.inr h2

lemma sortByDist_length (l : List (ℕ × ℝ)) :
    (sortByDist l).length = l.length := by
  unfold sortByDist
  induction l with
  | nil => rfl
  | cons c rest ih =>
    simp only [List.foldr_cons]
    rw [insertByDist_length, ih]
    rfl

lemma sortByDist_mem (l : List (ℕ × ℝ)) (x : ℕ × ℝ)
    (h : x ∈ sortByDist l) : x ∈ l := by
  unfold sortByDist at h
  induction l with
  | nil => simpa using h
  | cons c rest ih =>
    simp only [List.foldr_cons] at h
    rcases insertByDist_mem c _ x h with h2 | h2
    · rw [h2]; exact List.mem_cons_self _ _
    · exact List.mem_cons_of_mem _ (ih h2)

lemma shuffleList_length {α : Type} (g : Rng) (l : List α) :
    (shuffleList g l).1.length = l.length :=
  (shuffleList_perm g l).length_eq

lemma filter_partition_length (l : List (ℕ × ℝ)) :
    (l.filter (fun c => decide (c.2 ≤ 8/5))).length +
    (l.filter (fun c => decide (¬(c.2 ≤ 8/5)))).length = l.length := by
  induction l with
  | nil => rfl
  | cons c rest ih =>
    simp only [List.filter_cons]
    by_cases h : c.2 ≤ 8/5
    · rw [if_pos (by simp [h]), if_neg (by simp [h])]
      simp only [List.length_cons]
      omega
    · rw [if_neg (by simp [h]), if_pos (by simp [h])]
      simp only [List.length_cons]
      omega

lemma orderedParcels_length (bs : List Building) (roads : List RoadSegment)
    (g : Rng) :
    (orderedParcels bs roads g).1.length =
      (facilityCandidates bs roads).length := by
  unfold orderedParcels sortByAccess
  simp only [List.length_append, List.length_map]
  rw [sortByDist_length, sortByDist_length, shuffleList_length,
    shuffleList_length]
  exact filter_partition_length _

lemma facilityCandidates_idx_lt (bs : List Building)
    (roads : List RoadSegment) (p : ℕ × ℝ)
    (h : p ∈ facilityCandidates bs roads) : p.1 < bs.length := by
  simp only [facilityCandidates] at h
  split_ifs at h with h1
  · rcases List.mem_map.mp h with ⟨q, hq, hq2⟩
    have := List.mem_enum hq
    rw [← hq2]
    exact this.1
  · rcases List.mem_filterMap.mp h with ⟨q, hq, hq2⟩
    by_cases h2 : q.2.zone = ZoneType.Residential ∨
        q.2.zone = ZoneType.Commercial
    · rw [if_pos h2] at hq2
      have := List.mem_enum hq
      have he : p.1 = q.1 := by
        rw [← Option.some_inj.mp hq2]
      rw [he]
      exact this.1
    · rw [if_neg h2] at hq2
      exact absurd hq2 (by simp)

lemma orderedParcels_mem (bs : List Building) (roads : List RoadSegment)
    (g : Rng) (i : ℕ) (h : i ∈ (orderedParcels bs roads g).1) :
    i < bs.length := by
  unfold orderedParcels sortByAccess at h
  simp only [List.mem_append, List.mem_map] at h
  rcases h with ⟨p, hp, hp2⟩ | ⟨p, hp, hp2⟩
  · have h2 := sortByDist_mem _ _ hp
    have h3 := (shuffleList_perm g _).mem_iff.mp h2
    have h4 := List.mem_filter.mp h3
    rw [← hp2]
    exact facilityCandidates_idx_lt bs roads p h4.1
  · have h2 := sortByDist_mem _ _ hp
    have h3 := (shuffleList_perm _ _).mem_iff.mp h2
    have h4 := List.mem_filter.mp h3
    rw [← hp2]
    exact facilityCandidates_idx_lt bs roads p h4.1

lemma countFlag_set :
    ∀ (bs : List Building) (i : ℕ) (b' : Building), i < bs.length →
      (bs.getD i default).facility = false → b'.facility = true →
      countFlag (bs.set i b') = countFlag bs + 1 := by
  intro bs
  induction bs with
  | nil => intro i b' hi; simp at hi
  | cons hd tl ih =>
    intro i b' hi hf hb
    cases i with
    | zero =>
      simp only [List.set_cons_zero]
      unfold countFlag
      rw [List.countP_cons, List.countP_cons]
      simp only [List.getD_cons_zero] at hf
      simp [hf, hb]
    | succ i =>
      simp only [List.set_cons_succ]
      unfold countFlag
      rw [List.countP_cons, List.countP_cons]
      simp only [List.getD_cons_succ] at hf
      have := ih i b' (by simpa using hi) hf hb
      unfold countFlag at this
      omega

lemma placeLoop_balance (t : FacilityType) (count : ℕ) :
    ∀ (order : List ℕ) (placed : ℕ) (bs : List Building) (fs : List Facility),
      (∀ i ∈ order, i < bs.length) →
      (placeLoop t count order placed bs fs).2.length + countFlag bs =
        fs.length + countFlag (placeLoop t count order placed bs fs).1 := by
  intro order
  induction order with
  | nil => intro placed bs fs _; rfl
  | cons i rest ih =>
    intro placed bs fs hb
    simp only [placeLoop]
    split_ifs with h1 h2
    · rfl
    · exact ih _ _ _ (fun j hj => hb j (List.mem_cons_of_mem _ hj))
    · have hi : i < bs.length := hb i (List.mem_cons_self _ _)
      have hflag : (bs.getD i default).facility = false := by
        simpa using h2
      have hset := countFlag_set bs i (imprintFacility (bs.getD i default) t)
        hi hflag rfl
      have hbnd : ∀ j ∈ rest,
          j < (bs.set i (imprintFacility (bs.getD i default) t)).length := by
        intro j hj
        rw [List.length_set]
        exact hb j (List.mem_cons_of_mem _ hj)
      have := ih (placed + 1)
        (bs.set i (imprintFacility (bs.getD i default) t))
        (fs ++ [⟨(bs.getD i default).footprint.centreX,
          (bs.getD i default).footprint.centreY, t⟩]) hbnd
      rw [hset] at this
      simp only [List.length_append, List.length_singleton] at this
      omega

lemma freeCount_set (bs : List Building) (i : ℕ) (b' : Building)
    (hi : i < bs.length) (hf : (bs.getD i default).facility = false)
    (hb : b'.facility = true) :
    ∀ order0 : List ℕ,
      freeCount order0 (bs.set i b') + order0.count i =
        freeCount order0 bs := by
  intro order0
  induction order0 with
  | nil => rfl
  | cons k rest ih =>
    unfold freeCount at ih ⊢
    simp only [List.filter_cons]
    by_cases hk : k = i
    · subst hk
      have e1 : ((bs.set k b').getD k default) = b' := by
        rw [List.getD_eq_getElem?_getD, List.getElem?_set_self hi]
        rfl
      rw [List.count_cons_self]
      rw [if_neg (by rw [e1, hb]; simp)]
      rw [if_pos (by rw [hf]; simp)]
      simp only [List.length_cons]
      omega
    · have e1 : ((bs.set i b').getD k default) = bs.getD k default := by
        rw [List.getD_eq_getElem?_getD,
          List.getElem?_set_ne (fun he => hk he.symm),
          ← List.getD_eq_getElem?_getD]
      rw [e1, List.count_cons_of_ne (fun he => hk he.symm)]
      by_cases hp : (bs.getD k default).facility = true
      · rw [if_neg (by rw [hp]; simp), if_neg (by rw [hp]; simp)]
        exact ih
      · have hp2 : (bs.getD k default).facility = false := by simpa using hp
        rw [if_pos (by rw [hp2]; simp), if_pos (by rw [hp2]; simp)]
        simp only [List.length_cons]
        omega

lemma freeCount_le (order0 : List ℕ) (bs : List Building) :
    freeCount order0 bs ≤ order0.length :=
  List.length_filter_le _ _

lemma placeLoop_free (t : FacilityType) (count : ℕ) (order0 : List ℕ) :
    ∀ (order : List ℕ) (placed : ℕ) (bs : List Building) (fs : List Facility),
      order ⊆ order0 → (∀ i ∈ order, i < bs.length) →
      (placeLoop t count order placed bs fs).2.length +
        freeCount order0 (placeLoop t count order placed bs fs).1 ≤
      fs.length + freeCount order0 bs := by
  intro order
  induction order with
  | nil => intro placed bs fs _ _; exact le_refl _
  | cons i rest ih =>
    intro placed bs fs hsub hb
    simp only [placeLoop]
    split_ifs with h1 h2
    · exact le_refl _
    · exact ih _ _ _ (fun j hj => hsub (List.mem_cons_of_mem _ hj))
        (fun j hj => hb j (List.mem_cons_of_mem _ hj))
    · have hi : i < bs.length := hb i (List.mem_cons_self _ _)
      have hflag : (bs.getD i default).facility = false := by simpa using h2
      have hcnt : 0 < order0.count i :=
        List.count_pos_iff_mem.mpr (hsub (List.mem_cons_self _ _))
      have hset := freeCount_set bs i
        (imprintFacility (bs.getD i default) t) hi hflag rfl order0
      have hbnd : ∀ j ∈ rest,
          j < (bs.set i (imprintFacility (bs.getD i default) t)).length := by
        intro j hj
        rw [List.length_set]
        exact hb j (List.mem_cons_of_mem _ hj)
      have := ih (placed + 1)
        (bs.set i (imprintFacility (bs.getD i default) t))
        (fs ++ [⟨(bs.getD i default).footprint.centreX,
          (bs.getD i default).footprint.centreY, t⟩])
        (fun j hj => hsub (List.mem_cons_of_mem _ hj)) hbnd
      simp only [List.length_append, List.length_singleton] at this
      omega

lemma placeLoop_type_other (t : FacilityType) (count : ℕ) (u : FacilityType)
    (hne : u ≠ t) :
    ∀ (order : List ℕ) (placed : ℕ) (bs : List Building) (fs : List Facility),
      ((placeLoop t count order placed bs fs).2.filter
        (fun f => decide (f.type = u))).length =
      (fs.filter (fun f => decide (f.type = u))).length := by
  intro order
  induction order with
  | nil => intro placed bs fs; rfl
  | cons i rest ih =>
    intro placed bs fs
    simp only [placeLoop]
    split_ifs with h1 h2
    · rfl
    · exact ih _ _ _
    · rw [ih]
      rw [List.filter_append]
      simp [Ne.symm hne]

lemma placeLoop_type_le (t : FacilityType) (count : ℕ) :
    ∀ (order : List ℕ) (placed : ℕ) (bs : List Building) (fs : List Facility),
      placed ≤ count →
      ((placeLoop t count order placed bs fs).2.filter
          (fun f => decide (f.type = t))).length + placed ≤
        (fs.filter (fun f => decide (f.type = t))).length + count := by
  intro order
  induction order with
  | nil =>
    intro placed bs fs hp
    simp only [placeLoop]
    omega
  | cons i rest ih =>
    intro placed bs fs hp
    simp only [placeLoop]
    split_ifs with h1 h2
    · dsimp only
      omega
    · exact ih _ _ _ hp
    · have hlt : placed < count := lt_of_not_le h1
      have := ih (placed + 1)
        (bs.set i (imprintFacility (bs.getD i default) t))
        (fs ++ [⟨(bs.getD i default).footprint.centreX,
          (bs.getD i default).footprint.centreY, t⟩]) hlt
      have he : ((fs ++ [(⟨(bs.getD i default).footprint.centreX,
          (bs.getD i default).footprint.centreY, t⟩ : Facility)]).filter
            (fun f => decide (f.type = t))).length =
          (fs.filter (fun f => decide (f.type = t))).length + 1 := by
        rw [List.filter_append]
        simp
      rw [he] at this
      omega

/-- A facility record is hosted: some flagged building's footprint centre is
its position and carries its type. -/
def FacilityHosted (bs : List Building) (f : Facility) : Prop :=
  ∃ j, j < bs.length ∧ (bs.getD j default).facility = true ∧
    f.x = (bs.getD j default).footprint.centreX ∧
    f.y = (bs.getD j default).footprint.centreY ∧
    (bs.getD j default).facilityType = f.type

lemma placeLoop_hosted (t : FacilityType) (count : ℕ) :
    ∀ (order : List ℕ) (placed : ℕ) (bs : List Building) (fs : List Facility),
      (∀ i ∈ order, i < bs.length) →
      (∀ f ∈ fs, FacilityHosted bs f) →
      ∀ f ∈ (placeLoop t count order placed bs fs).2,
        FacilityHosted (placeLoop t count order placed bs fs).1 f := by
  intro order
  induction order with
  | nil => intro placed bs fs _ hfs f hf; exact hfs f hf
  | cons i rest ih =>
    intro placed bs fs hb hfs
    simp only [placeLoop]
    split_ifs with h1 h2
    · exact hfs
    · exact ih _ _ _ (fun j hj => hb j (List.mem_cons_of_mem _ hj)) hfs
    · have hi : i < bs.length := hb i (List.mem_cons_self _ _)
      have hflag : (bs.getD i default).facility = false := by simpa using h2
      have hseti : ((bs.set i (imprintFacility (bs.getD i default) t)).getD
          i default) = imprintFacility (bs.getD i default) t := by
        rw [List.getD_eq_getElem?_getD, List.getElem?_set_self hi]
        rfl
      apply ih
      · intro j hj
        rw [List.length_set]
        exact hb j (List.mem_cons_of_mem _ hj)
      · intro f hf
        rcases List.mem_append.mp hf with hf2 | hf2
        · rcases hfs f hf2 with ⟨j, hj1, hj2, hj3, hj4, hj5⟩
          have hij : i ≠ j := by
            intro he
            rw [← he] at hj2
            rw [hflag] at hj2
            exact Bool.false_ne_true hj2
          have hsame : ((bs.set i (imprintFacility (bs.getD i default)
              t)).getD j default) = bs.getD j default := by
            rw [List.getD_eq_getElem?_getD, List.getElem?_set_ne hij,
              ← List.getD_eq_getElem?_getD]
          exact ⟨j, by rw [List.length_set]; exact hj1,
            by rw [hsame]; exact hj2, by rw [hsame]; exact hj3,
            by rw [hsame]; exact hj4, by rw [hsame]; exact hj5⟩
        · rw [List.mem_singleton] at hf2
          subst hf2
          refine ⟨i, by rw [List.length_set]; exact hi, ?_, ?_, ?_, ?_⟩
          · rw [hseti]; rfl
          · rw [hseti]; rfl
          · rw [hseti]; rfl
          · rw [hseti]; rfl

/-- Claim C5: in every generated city, no building hosts more than one
facility (the facility list is in bijection with the flagged buildings:
equal counts), each facility type places at most the requested count
(`cfg.hospitals` / `cfg.schools`, as the `uint32_t` the source converts them
to), the total placed is at most the number of distinct eligible candidate
buildings, and every facility record sits at the centre of its (flagged)
building's footprint with the matching type. -/
theorem C5_facility_exclusivity (cfg : Config) :
    (generate cfg).facilities.length = countFlag (generate cfg).buildings ∧
    ((generate cfg).facilities.filter
        (fun f => decide (f.type = FacilityType.Hospital))).length ≤
      facilityCount cfg.hospitals ∧
    ((generate cfg).facilities.filter
        (fun f => decide (f.type = FacilityType.School))).length ≤
      facilityCount cfg.schools ∧
    (generate cfg).facilities.length ≤ eligibleCount (preCity cfg).1 ∧
    ∀ j : Fin (generate cfg).facilities.length,
      ∃ i : Fin (generate cfg).buildings.length,
        ((generate cfg).buildings.get i).facility = true ∧
        ((generate cfg).facilities.get j).x =
          ((generate cfg).buildings.get i).footprint.centreX ∧
        ((generate cfg).facilities.get j).y =
          ((generate cfg).buildings.get i).footprint.centreY ∧
        ((generate cfg).buildings.get i).facilityType =
          ((generate cfg).facilities.get j).type := by
  have hgenb : (generate cfg).buildings =
      (placeLoop FacilityType.School (facilityCount cfg.schools)
        (orderedParcels (preCity cfg).1.buildings (preCity cfg).1.roads
          (preCity cfg).2).1 0
        (placeLoop FacilityType.Hospital (facilityCount cfg.hospitals)
          (orderedParcels (preCity cfg).1.buildings (preCity cfg).1.roads
            (preCity cfg).2).1 0 (preCity cfg).1.buildings []).1
        (placeLoop FacilityType.Hospital (facilityCount cfg.hospitals)
          (orderedParcels (preCity cfg).1.buildings (preCity cfg).1.roads
            (preCity cfg).2).1 0 (preCity cfg).1.buildings []).2).1 := rfl
  have hgenf : (generate cfg).facilities =
      (placeLoop FacilityType.School (facilityCount cfg.schools)
        (orderedParcels (preCity cfg).1.buildings (preCity cfg).1.roads
          (preCity cfg).2).1 0
        (placeLoop FacilityType.Hospital (facilityCount cfg.hospitals)
          (orderedParcels (preCity cfg).1.buildings (preCity cfg).1.roads
            (preCity cfg).2).1 0 (preCity cfg).1.buildings []).1
        (placeLoop FacilityType.Hospital (facilityCount cfg.hospitals)
          (orderedParcels (preCity cfg).1.buildings (preCity cfg).1.roads
            (preCity cfg).2).1 0 (preCity cfg).1.buildings []).2).2 := rfl
  have hbnd : ∀ i ∈ (orderedParcels (preCity cfg).1.buildings
      (preCity cfg).1.roads (preCity cfg).2).1,
      i < (preCity cfg).1.buildings.length :=
    fun i hi => orderedParcels_mem _ _ _ i hi
  have hbnd1 : ∀ i ∈ (orderedParcels (preCity cfg).1.buildings
      (preCity cfg).1.roads (preCity cfg).2).1,
      i < (placeLoop FacilityType.Hospital (facilityCount cfg.hospitals)
        (orderedParcels (preCity cfg).1.buildings (preCity cfg).1.roads
          (preCity cfg).2).1 0 (preCity cfg).1.buildings []).1.length := by
    intro i hi
    rw [placeLoop_length]
    exact hbnd i hi
  have hflag0 : countFlag (preCity cfg).1.buildings = 0 := by
    apply List.countP_eq_zero.mpr
    intro b hb
    have := (preCity_buildings_init cfg b hb).2.1
    simp [this]
  have hbal1 := placeLoop_balance FacilityType.Hospital
    (facilityCount cfg.hospitals)
    (orderedParcels (preCity cfg).1.buildings (preCity cfg).1.roads
      (preCity cfg).2).1 0 (preCity cfg).1.buildings [] hbnd
  have hbal2 := placeLoop_balance FacilityType.School
    (facilityCount cfg.schools)
    (orderedParcels (preCity cfg).1.buildings (preCity cfg).1.roads
      (preCity cfg).2).1 0
    (placeLoop FacilityType.Hospital (facilityCount cfg.hospitals)
      (orderedParcels (preCity cfg).1.buildings (preCity cfg).1.roads
        (preCity cfg).2).1 0 (preCity cfg).1.buildings []).1
    (placeLoop FacilityType.Hospital (facilityCount cfg.hospitals)
      (orderedParcels (preCity cfg).1.buildings (preCity cfg).1.roads
        (preCity cfg).2).1 0 (preCity cfg).1.buildings []).2 hbnd1
  refine ⟨?_, ?_, ?_, ?_, ?_⟩
  · rw [hgenf, hgenb]
    rw [hflag0] at hbal1
    simp only [List.length_nil] at hbal1
    omega
  · rw [hgenf]
    have h1 := placeLoop_type_le FacilityType.Hospital
      (facilityCount cfg.hospitals)
      (orderedParcels (preCity cfg).1.buildings (preCity cfg).1.roads
        (preCity cfg).2).1 0 (preCity cfg).1.buildings []
      (Nat.zero_le _)
    have h2 := placeLoop_type_other FacilityType.School
      (facilityCount cfg.schools) FacilityType.Hospital (by simp)
      (orderedParcels (preCity cfg).1.buildings (preCity cfg).1.roads
        (preCity cfg).2).1 0
      (placeLoop FacilityType.Hospital (facilityCount cfg.hospitals)
        (orderedParcels (preCity cfg).1.buildings (preCity cfg).1.roads
          (preCity cfg).2).1 0 (preCity cfg).1.buildings []).1
      (placeLoop FacilityType.Hospital (facilityCount cfg.hospitals)
        (orderedParcels (preCity cfg).1.buildings (preCity cfg).1.roads
          (preCity cfg).2).1 0 (preCity cfg).1.buildings []).2
    rw [h2]
    simp only [List.filter_nil, List.length_nil] at h1
    omega
  · rw [hgenf]
    have h0 := placeLoop_type_other FacilityType.Hospital
      (facilityCount cfg.hospitals) FacilityType.School (by simp)
      (orderedParcels (preCity cfg).1.buildings (preCity cfg).1.roads
        (preCity cfg).2).1 0 (preCity cfg).1.buildings []
    have h1 := placeLoop_type_le FacilityType.School
      (facilityCount cfg.schools)
      (orderedParcels (preCity cfg).1.buildings (preCity cfg).1.roads
        (preCity cfg).2).1 0
      (placeLoop FacilityType.Hospital (facilityCount cfg.hospitals)
        (orderedParcels (preCity cfg).1.buildings (preCity cfg).1.roads
          (preCity cfg).2).1 0 (preCity cfg).1.buildings []).1
      (placeLoop FacilityType.Hospital (facilityCount cfg.hospitals)
        (orderedParcels (preCity cfg).1.buildings (preCity cfg).1.roads
          (preCity cfg).2).1 0 (preCity cfg).1.buildings []).2
      (Nat.zero_le _)
    rw [h0] at h1
    simp only [List.filter_nil, List.length_nil] at h1
    omega
  · rw [hgenf]
    have hfree1 := placeLoop_free FacilityType.Hospital
      (facilityCount cfg.hospitals)
      (orderedParcels (preCity cfg).1.buildings (preCity cfg).1.roads
        (preCity cfg).2).1
      (orderedParcels (preCity cfg).1.buildings (preCity cfg).1.roads
        (preCity cfg).2).1 0 (preCity cfg).1.buildings []
      (List.Subset.refl _) hbnd
    have hfree2 := placeLoop_free FacilityType.School
      (facilityCount cfg.schools)
      (orderedParcels (preCity cfg).1.buildings (preCity cfg).1.roads
        (preCity cfg).2).1
      (orderedParcels (preCity cfg).1.buildings (preCity cfg).1.roads
        (preCity cfg).2).1 0
      (placeLoop FacilityType.Hospital (facilityCount cfg.hospitals)
        (orderedParcels (preCity cfg).1.buildings (preCity cfg).1.roads
          (preCity cfg).2).1 0 (preCity cfg).1.buildings []).1
      (placeLoop FacilityType.Hospital (facilityCount cfg.hospitals)
        (orderedParcels (preCity cfg).1.buildings (preCity cfg).1.roads
          (preCity cfg).2).1 0 (preCity cfg).1.buildings []).2
      (List.Subset.refl _) hbnd1
    have hlen := orderedParcels_length (preCity cfg).1.buildings
      (preCity cfg).1.roads (preCity cfg).2
    have hcand := facilityCandidates_length (preCity cfg).1.buildings
      (preCity cfg).1.roads
    have hfc := freeCount_le (orderedParcels (preCity cfg).1.buildings
      (preCity cfg).1.roads (preCity cfg).2).1 (preCity cfg).1.buildings
    have hel : eligibleCount (preCity cfg).1 =
        (facilityCandidates (preCity cfg).1.buildings
          (preCity cfg).1.roads).length := by
      rw [hcand]
      unfold eligibleCount
      rfl
    simp only [List.length_nil] at hfree1
    rw [hel, ← hlen]
    omega
  · intro j
    have hhost1 := placeLoop_hosted FacilityType.Hospital
      (facilityCount cfg.hospitals)
      (orderedParcels (preCity cfg).1.buildings (preCity cfg).1.roads
        (preCity cfg).2).1 0 (preCity cfg).1.buildings [] hbnd
      (fun f hf => absurd hf (List.not_mem_nil f))
    have hhost2 := placeLoop_hosted FacilityType.School
      (facilityCount cfg.schools)
      (orderedParcels (preCity cfg).1.buildings (preCity cfg).1.roads
        (preCity cfg).2).1 0
      (placeLoop FacilityType.Hospital (facilityCount cfg.hospitals)
        (orderedParcels (preCity cfg).1.buildings (preCity cfg).1.roads
          (preCity cfg).2).1 0 (preCity cfg).1.buildings []).1
      (placeLoop FacilityType.Hospital (facilityCount cfg.hospitals)
        (orderedParcels (preCity cfg).1.buildings (preCity cfg).1.roads
          (preCity cfg).2).1 0 (preCity cfg).1.buildings []).2 hbnd1 hhost1
    have hjmem : (generate cfg).facilities.get j ∈
        (generate cfg).facilities := List.get_mem _ j.1 j.2
    have hf := hhost2 ((generate cfg).facilities.get j)
      (by rw [← hgenf]; exact hjmem)
    rcases hf with ⟨i, hi1, hi2, hi3, hi4, hi5⟩
    have hilt : i < (generate cfg).buildings.length := by
      rw [hgenb]
      exact hi1
    refine ⟨⟨i, hilt⟩, ?_, ?_, ?_, ?_⟩
    · have : (generate cfg).buildings.get ⟨i, hilt⟩ =
          (generate cfg).buildings.getD i default := by
        rw [List.getD_eq_getElem?_getD, List.getElem?_eq_getElem hilt]
        rfl
      rw [this, hgenb]
      exact hi2
    · have : (generate cfg).buildings.get ⟨i, hilt⟩ =
          (generate cfg).buildings.getD i default := by
        rw [List.getD_eq_getElem?_getD, List.getElem?_eq_getElem hilt]
        rfl
      rw [this, hgenb]
      exact hi3
    · have : (generate cfg).buildings.get ⟨i, hilt⟩ =
          (generate cfg).buildings.getD i default := by
        rw [List.getD_eq_getElem?_getD, List.getElem?_eq_getElem hilt]
        rfl
      rw [this, hgenb]
      exact hi4
    · have : (generate cfg).buildings.get ⟨i, hilt⟩ =
          (generate cfg).buildings.getD i default := by
        rw [List.getD_eq_getElem?_getD, List.getElem?_eq_getElem hilt]
        rfl
      rw [this, hgenb]
      exact hi5

/-! ### Road-classification claims (C2, C8) -/

/-- The classification claim C2 asserts for every segment: thresholds 0.15 /
0.6 on the normalized distance from the centre line/ring.  (Claim-side
definition; the source's grid-layout `classifyRoad` agrees with it, the
radial `ringType` does not.) -/
noncomputable def claimRoadClassify (norm : ℝ) : RoadType :=
  if norm < 15/100 then RoadType.Arterial
  else if norm < 6/10 then RoadType.Secondary
  else RoadType.Local

/-- The radial classification actually implemented by `ringType`
(src/src/CityGenerator.cpp lines 479–484), over the reals: thresholds 0.3 /
0.75. -/
noncomputable def radialClassify (norm : ℝ) : RoadType :=
  if norm < 3/10 then RoadType.Arterial
  else if norm < 3/4 then RoadType.Secondary
  else RoadType.Local

/-- Normalized distance of a grid-layout road line from the centre: a
vertical segment is measured by its x alignment, a horizontal one by its y
alignment (with `classifyRoad`'s `1e-6` denominator guard). -/
noncomputable def gridNormOf (cfg : Config) (seg : RoadSegment) : ℝ :=
  (if seg.x1 = seg.x2 then |seg.x1 - cfg.centreR| else |seg.y1 - cfg.centreR|) /
    (if cfg.radiusR > 1/1000000 then cfg.radiusR else 1)

/-- Normalized distance of a radial-layout segment's start point from the
centre (with `ringType`'s `1e-6` guard); 0 for the spokes, which start at
the centre. -/
noncomputable def radialNormOf (cfg : Config) (seg : RoadSegment) : ℝ :=
  if cfg.radiusQ > 1/1000000 then
    Real.sqrt ((seg.x1 - cfg.centreR) ^ 2 + (seg.y1 - cfg.centreR) ^ 2) /
      cfg.radiusR
  else 0

/-- The normalized distance claim C2 measures a segment by, layout-wise. -/
noncomputable def segNorm (cfg : Config) (seg : RoadSegment) : ℝ :=
  match cfg.layout with
  | LayoutType.Grid => gridNormOf cfg seg
  | LayoutType.Radial => radialNormOf cfg seg

/-- The fractional offsets at which claim C8 (quoting spec §4.3) places the
grid road lines: `{0, 0.1, 0.5, center, 0.5, 0.9, 1.0} × radius` — as a set
of distinct fractions `{0 (the centre line), 0.1, 0.5, 0.9, 1.0}`. -/
def claimedGridOffsets : List ℚ := [0, 1/10, 1/2, 9/10, 1]

lemma normalize_gridN_ge (cfg : Config) :
    10 ≤ (Config.normalize cfg).gridN := by
  unfold Config.gridN Config.normalize
  simp only
  split_ifs with h <;> omega

lemma normalize_radiusQ_pos (cfg : Config) :
    0 < (Config.normalize cfg).radiusQ := by
  have hcr : 0 < (Config.normalize cfg).city_radius := by
    unfold Config.normalize
    simp only
    split_ifs with h1 h2
    · norm_num
    · norm_num
    · linarith [not_le.mp h1]
  have hn : (10 : ℚ) ≤ ((Config.normalize cfg).gridN : ℚ) := by
    exact_mod_cast normalize_gridN_ge cfg
  unfold Config.radiusQ
  positivity

lemma normalize_radiusR_pos (cfg : Config) :
    0 < (Config.normalize cfg).radiusR := by
  unfold Config.radiusR
  exact_mod_cast normalize_radiusQ_pos cfg

lemma classifyRoad_eq_claim (anchor radius coord : ℝ) :
    classifyRoad anchor radius coord =
      claimRoadClassify (|coord - anchor| /
        (if radius > 1/1000000 then radius else 1)) := rfl

lemma ringType_eq_radialClassify (r maxR : ℚ) :
    ringType r maxR =
      radialClassify ((if maxR > 1/1000000 then r / maxR else 0 : ℚ) : ℝ) := by
  unfold ringType radialClassify
  by_cases hg : maxR > 1/1000000
  · rw [if_pos hg]
    dsimp only
    have e3 : (3/10 : ℝ) = ((3/10 : ℚ) : ℝ) := by norm_num
    have e4 : (3/4 : ℝ) = ((3/4 : ℚ) : ℝ) := by norm_num
    by_cases h1 : r / maxR < 3/10
    · have h1R : ((r / maxR : ℚ) : ℝ) < 3/10 := by
        rw [e3]; exact_mod_cast h1
      rw [if_pos h1, if_pos h1R]
    · have h1R : ¬((r / maxR : ℚ) : ℝ) < 3/10 := by
        rw [e3]; intro hc; exact h1 (by exact_mod_cast hc)
      rw [if_neg h1, if_neg h1R]
      by_cases h2 : r / maxR < 3/4
      · have h2R : ((r / maxR : ℚ) : ℝ) < 3/4 := by
          rw [e4]; exact_mod_cast h2
        rw [if_pos h2, if_pos h2R]
      · have h2R : ¬((r / maxR : ℚ) : ℝ) < 3/4 := by
          rw [e4]; intro hc; exact h2 (by exact_mod_cast hc)
        rw [if_neg h2, if_neg h2R]
  · rw [if_neg hg]
    dsimp only
    norm_num

lemma generate_roads_eq (cfg : Config) :
    (generate cfg).roads = match cfg.layout with
      | LayoutType.Grid => gridRoads cfg
      | LayoutType.Radial => radialRoads cfg := by
  cases h : cfg.layout <;> simp [generate, facilityStage, preCity, h]

lemma polar_dist (cx r t : ℝ) (hr : 0 ≤ r) :
    Real.sqrt ((cx + r * Real.cos t - cx) ^ 2 +
      (cx + r * Real.sin t - cx) ^ 2) = r := by
  have h1 : (cx + r * Real.cos t - cx) ^ 2 + (cx + r * Real.sin t - cx) ^ 2 =
      r ^ 2 * (Real.sin t ^ 2 + Real.cos t ^ 2) := by ring
  rw [h1, Real.sin_sq_add_cos_sq, mul_one, Real.sqrt_sq hr]

lemma ringEdges_nonneg (cfg : Config) (h : 0 ≤ cfg.radiusQ) :
    ∀ r ∈ ringEdges cfg, 0 ≤ r := by
  intro r hr
  unfold ringEdges at hr
  rcases List.mem_cons.mp hr with h1 | h1
  · rw [h1]
  · rcases List.mem_append.mp h1 with h2 | h2
    · rcases List.mem_map.mp h2 with ⟨k, _, rfl⟩
      have c1 : (0 : ℚ) ≤ (k : ℚ) := Nat.cast_nonneg k
      have c2 : (0 : ℚ) ≤ (ringCount cfg : ℚ) := Nat.cast_nonneg _
      exact div_nonneg (mul_nonneg h (by linarith)) (by linarith)
    · rw [List.mem_singleton.mp h2]
      exact h

lemma interiorRingEdges_nonneg (cfg : Config) (h : 0 ≤ cfg.radiusQ) :
    ∀ r ∈ interiorRingEdges cfg, 0 ≤ r := by
  intro r hr
  apply ringEdges_nonneg cfg h
  unfold interiorRingEdges at hr
  exact List.drop_subset _ _ (List.dropLast_subset _ hr)

lemma roads_classification (cfg : Config) (h : 0 < cfg.radiusQ)
    (seg : RoadSegment) (hmem : seg ∈ (generate cfg).roads) :
    seg.type = (match cfg.layout with
      | LayoutType.Grid => claimRoadClassify (gridNormOf cfg seg)
      | LayoutType.Radial => radialClassify (radialNormOf cfg seg)) := by
  rw [generate_roads_eq] at hmem
  have hrR : (0 : ℝ) < cfg.radiusR := by
    unfold Config.radiusR
    exact_mod_cast h
  cases hl : cfg.layout with
  | Grid =>
    rw [hl] at hmem
    simp only
    rcases List.mem_append.mp hmem with h1 | h1
    · rcases List.mem_map.mp h1 with ⟨x, _, rfl⟩
      unfold gridNormOf gridVRoad
      simp only [if_pos rfl]
      exact classifyRoad_eq_claim cfg.centreR cfg.radiusR x
    · rcases List.mem_map.mp h1 with ⟨y, _, rfl⟩
      unfold gridNormOf gridHRoad
      rw [if_neg (by intro he; simp only at he; linarith)]
      exact classifyRoad_eq_claim cfg.centreR cfg.radiusR y
  | Radial =>
    rw [hl] at hmem
    simp only
    have hguard : cfg.radiusQ > 1/1000000 ∨ ¬(cfg.radiusQ > 1/1000000) :=
      em _
    rcases List.mem_append.mp hmem with h1 | h1
    · rcases List.mem_flatMap.mp h1 with ⟨r, hr, hseg⟩
      have hr0 : 0 ≤ r := interiorRingEdges_nonneg cfg (le_of_lt h) r hr
      rcases List.mem_map.mp hseg with ⟨s, _, rfl⟩
      unfold radialNormOf polarToCartesian
      simp only
      rw [polar_dist cfg.centreR (r : ℝ)
        ((twoPi : ℝ) * (s : ℝ) / (segsPerRing cfg : ℝ))
        (by exact_mod_cast hr0)]
      rw [ringType_eq_radialClassify r cfg.radiusQ]
      congr 1
      by_cases hg : cfg.radiusQ > 1/1000000
      · rw [if_pos hg, if_pos hg]
        unfold Config.radiusR
        push_cast
        ring
      · rw [if_neg hg, if_neg hg]
        norm_num
    · rcases List.mem_map.mp h1 with ⟨k, _, rfl⟩
      simp only [radialNormOf, polarToCartesian]
      rw [polar_dist cfg.centreR 0
        (((angleDelta cfg : ℚ) : ℝ) * (k : ℝ)) le_rfl]
      by_cases hg : cfg.radiusQ > 1/1000000
      · rw [if_pos hg]
        rw [zero_div]
        unfold radialClassify
        rw [if_pos (by norm_num)]
      · rw [if_neg hg]
        unfold radialClassify
        rw [if_pos (by norm_num)]

/-- Claim C2 (amended): every road segment emitted by the road-network stage
is classified from its normalized distance from the centre line/ring, but
with layout-specific thresholds: the Grid layout uses the claimed 0.15 / 0.6
thresholds, while the Radial layout's rings use `ringType`'s 0.3 / 0.75
thresholds (normalized ring radius) and its spokes — which start at the
centre, normalized distance 0 — are Arterial. -/
theorem C2_road_classification_amended (cfg : Config)
    (i : Fin (generate (Config.normalize cfg)).roads.length) :
    ((generate (Config.normalize cfg)).roads.get i).type =
      (match (Config.normalize cfg).layout with
        | LayoutType.Grid => claimRoadClassify (gridNormOf
            (Config.normalize cfg)
            ((generate (Config.normalize cfg)).roads.get i))
        | LayoutType.Radial => radialClassify (radialNormOf
            (Config.normalize cfg)
            ((generate (Config.normalize cfg)).roads.get i))) :=
  roads_classification (Config.normalize cfg) (normalize_radiusQ_pos cfg)
    _ (List.get_mem _ i.1 i.2)

/-- The counterexample configuration for claim C2: Radial layout, 10×10
grid, `city_radius = 1` (urban radius 5), population 0 — already
normalized. -/
def cfgC2 : Config :=
  { seed := 0, population := 0, grid_size := 10, city_radius := 1,
    hospitals := 0, schools := 0, green_m2_per_capita := 0,
    transport_mode := TransportMode.Car, layout := LayoutType.Radial,
    output_name := "city" }

lemma cfgC2_ringCount : ringCount cfgC2 = 3 := by
  norm_num [ringCount, cfgC2, round_eq]
  decide

lemma cfgC2_radiusQ : cfgC2.radiusQ = 5 := by
  have h10 : (10 : ℤ).toNat = 10 := rfl
  norm_num [Config.radiusQ, Config.gridN, cfgC2, h10]

lemma cfgC2_radialRoadCount : radialRoadCount cfgC2 = 18 := by
  norm_num [radialRoadCount, cfgC2, round_eq]
  decide

lemma cfgC2_segsPerRing : segsPerRing cfgC2 = 36 := by
  norm_num [segsPerRing, cfgC2_radialRoadCount]

lemma cfgC2_interior_mem : (5/4 : ℚ) ∈ interiorRingEdges cfgC2 := by
  unfold interiorRingEdges ringEdges
  rw [cfgC2_ringCount, cfgC2_radiusQ]
  norm_num [List.range_succ, List.dropLast]

lemma ringRoadsFor_exists (cfg : Config) (r : ℚ) (h : 0 < segsPerRing cfg)
    (hr : 0 ≤ r) :
    ∃ seg ∈ ringRoadsFor cfg r,
      seg.type = ringType r cfg.radiusQ ∧
      Real.sqrt ((seg.x1 - cfg.centreR) ^ 2 + (seg.y1 - cfg.centreR) ^ 2)
        = (r : ℝ) := by
  unfold ringRoadsFor
  refine ⟨_, List.mem_map.mpr ⟨0, List.mem_range.mpr h, rfl⟩, rfl, ?_⟩
  simp only [polarToCartesian]
  exact polar_dist cfg.centreR (r : ℝ) _ (by exact_mod_cast hr)

/-- Claim C2 (counterexample): the claimed uniform 0.15 / 0.6 thresholds do
not hold of the Radial layout.  At `cfgC2` the innermost ring has radius
5/4, normalized distance 1/4 from the centre: the claim demands Secondary
(1/4 ≥ 0.15) but the source's `ringType` classifies it Arterial
(1/4 < 0.3). -/
theorem C2_counterexample :
    ¬ (∀ (cfg : Config), ∀ seg ∈ (generate (Config.normalize cfg)).roads,
        seg.type = claimRoadClassify (segNorm (Config.normalize cfg) seg)) := by
  intro hcl
  have hn : Config.normalize cfgC2 = cfgC2 := by
    simp only [Config.normalize, cfgC2]
    norm_num
  obtain ⟨seg, hsm, htype, hdist⟩ :=
    ringRoadsFor_exists cfgC2 (5/4)
      (by rw [cfgC2_segsPerRing]; norm_num) (by norm_num)
  have hsegroads : seg ∈ (generate (Config.normalize cfgC2)).roads := by
    rw [hn, generate_roads_eq]
    show seg ∈ radialRoads cfgC2
    unfold radialRoads
    exact List.mem_append_left _
      (List.mem_flatMap.mpr ⟨5/4, cfgC2_interior_mem, hsm⟩)
  have hguard : cfgC2.radiusQ > 1/1000000 := by
    rw [cfgC2_radiusQ]; norm_num
  have hrR : cfgC2.radiusR = (5 : ℝ) := by
    unfold Config.radiusR; rw [cfgC2_radiusQ]; norm_num
  have hsn : segNorm cfgC2 seg = ((5/4 : ℚ) : ℝ) / (5 : ℝ) := by
    show radialNormOf cfgC2 seg = _
    unfold radialNormOf
    rw [if_pos hguard, hdist, hrR]
  have ht2 : ringType (5/4) cfgC2.radiusQ = RoadType.Arterial := by
    rw [cfgC2_radiusQ]; unfold ringType; norm_num
  have hclaim : claimRoadClassify (((5/4 : ℚ) : ℝ) / (5 : ℝ)) =
      RoadType.Secondary := by
    unfold claimRoadClassify
    norm_num
  have hc := hcl cfgC2 seg hsegroads
  rw [hn, htype, ht2, hsn, hclaim] at hc
  exact RoadType.noConfusion hc

/-- The counterexample configuration for claim C8: Grid layout, 10×10 grid,
`city_radius = 1` (urban radius 5, centre 5) — already normalized. -/
def cfgC8 : Config :=
  { seed := 0, population := 0, grid_size := 10, city_radius := 1,
    hospitals := 0, schools := 0, green_m2_per_capita := 0,
    transport_mode := TransportMode.Car, layout := LayoutType.Grid,
    output_name := "city" }

lemma cfgC8_centreR : cfgC8.centreR = 5 := by
  have h10 : (10 : ℤ).toNat = 10 := rfl
  norm_num [Config.centreR, Config.centre, Config.gridN, cfgC8, h10]

lemma cfgC8_radiusR : cfgC8.radiusR = 5 := by
  have h10 : (10 : ℤ).toNat = 10 := rfl
  norm_num [Config.radiusR, Config.radiusQ, Config.gridN, cfgC8, h10]

/-- Claim C8 (counterexample): the claimed fractional offsets include 0.1,
but the source (CityGenerator.cpp lines 375–378) places no grid line at
`centre ± 0.1 × radius`: at `cfgC8` (centre 5, radius 5) the claim demands a
line at distance 1/2 from the centre, yet the seven lines sit at
0, 0.5, 2.5, 5, 7.5, 9.5, 10 — none at 4.5 or 5.5. -/
theorem C8_counterexample :
    ¬ (∀ cfg : Config, (Config.normalize cfg).layout = LayoutType.Grid →
        (gridXLines (Config.normalize cfg)).length = 7 ∧
        ∀ o ∈ claimedGridOffsets,
          ∃ x ∈ gridXLines (Config.normalize cfg),
            |x - (Config.normalize cfg).centreR| =
              (o : ℝ) * (Config.normalize cfg).radiusR) := by
  intro hcl
  have hn : Config.normalize cfgC8 = cfgC8 := by
    simp only [Config.normalize, cfgC8]
    norm_num
  obtain ⟨-, h2⟩ := hcl cfgC8 (by rw [hn]; rfl)
  obtain ⟨x, hx, he⟩ := h2 (1/10) (by norm_num [claimedGridOffsets])
  rw [hn, cfgC8_centreR, cfgC8_radiusR] at he
  rw [hn] at hx
  have hv : ((1/10 : ℚ) : ℝ) * 5 = 1/2 := by push_cast; norm_num
  rw [hv] at he
  have habs := (abs_eq (by norm_num : (0 : ℝ) ≤ 1/2)).mp he
  simp only [gridXLines, cfgC8_centreR, cfgC8_radiusR, List.mem_cons,
    List.not_mem_nil, or_false] at hx
  rcases hx with h | h | h | h | h | h | h <;> rcases habs with h2 | h2 <;>
    rw [h] at h2 <;> norm_num at h2

/-- The fractional offsets the source actually uses for the grid road lines
(CityGenerator.cpp lines 375–378): symmetric about the centre, with no 0.1
entry. -/
def codeGridOffsets : List ℚ := [-1, -9/10, -1/2, 0, 1/2, 9/10, 1]

/-- Claim C8 (amended): in the Grid layout the road-network stage emits
exactly 7 road lines on each axis, the y alignments equal the x alignments,
the lines are strictly increasing (so the source's sort-and-deduplicate is a
no-op), and they sit at the fractional offsets
`{−1, −0.9, −0.5, 0, 0.5, 0.9, 1} × radius` from the centre — not at
`0.1 × radius`.  The stage then emits exactly these 14 roads, each spanning
the developed area `centre − radius … centre + radius` on the other axis. -/
theorem C8_grid_lines_amended (cfg : Config) :
    (gridXLines (Config.normalize cfg)).length = 7 ∧
    gridYLines (Config.normalize cfg) = gridXLines (Config.normalize cfg) ∧
    List.Chain' (· < ·) (gridXLines (Config.normalize cfg)) ∧
    (∀ x ∈ gridXLines (Config.normalize cfg), ∃ o ∈ codeGridOffsets,
      x = (Config.normalize cfg).centreR +
        (o : ℝ) * (Config.normalize cfg).radiusR) ∧
    (∀ o ∈ codeGridOffsets,
      (Config.normalize cfg).centreR + (o : ℝ) * (Config.normalize cfg).radiusR
        ∈ gridXLines (Config.normalize cfg)) ∧
    ((Config.normalize cfg).layout ≠ LayoutType.Grid ∨
      ((generate (Config.normalize cfg)).roads.length = 14 ∧
       ∀ seg ∈ (generate (Config.normalize cfg)).roads,
         (seg.x1 = seg.x2 ∧
          seg.y1 = (Config.normalize cfg).centreR -
            (Config.normalize cfg).radiusR ∧
          seg.y2 = (Config.normalize cfg).centreR +
            (Config.normalize cfg).radiusR) ∨
         (seg.y1 = seg.y2 ∧
          seg.x1 = (Config.normalize cfg).centreR -
            (Config.normalize cfg).radiusR ∧
          seg.x2 = (Config.normalize cfg).centreR +
            (Config.normalize cfg).radiusR))) := by
  have hr : (0 : ℝ) < (Config.normalize cfg).radiusR := normalize_radiusR_pos cfg
  refine ⟨rfl, rfl, ?_, ?_, ?_, ?_⟩
  · simp only [gridXLines, List.chain'_cons, List.chain'_singleton, and_true]
    refine ⟨?_, ?_, ?_, ?_, ?_, ?_⟩ <;> linarith
  · intro x hx
    simp only [gridXLines, List.mem_cons, List.not_mem_nil, or_false] at hx
    rcases hx with h | h | h | h | h | h | h
    · exact ⟨-1, by norm_num [codeGridOffsets], by rw [h]; push_cast; ring⟩
    · exact ⟨-9/10, by norm_num [codeGridOffsets], by rw [h]; push_cast; ring⟩
    · exact ⟨-1/2, by norm_num [codeGridOffsets], by rw [h]; push_cast; ring⟩
    · exact ⟨0, by norm_num [codeGridOffsets], by rw [h]; push_cast; ring⟩
    · exact ⟨1/2, by norm_num [codeGridOffsets], by rw [h]; push_cast; ring⟩
    · exact ⟨9/10, by norm_num [codeGridOffsets], by rw [h]; push_cast; ring⟩
    · exact ⟨1, by norm_num [codeGridOffsets], by rw [h]; push_cast; ring⟩
  · intro o ho
    simp only [codeGridOffsets, List.mem_cons, List.not_mem_nil, or_false] at ho
    rcases ho with h | h | h | h | h | h | h <;> subst h
    · have hx : (Config.normalize cfg).centreR +
          ((-1 : ℚ) : ℝ) * (Config.normalize cfg).radiusR =
          (Config.normalize cfg).centreR - (Config.normalize cfg).radiusR := by
        push_cast; ring
      rw [hx]; simp [gridXLines]
    · have hx : (Config.normalize cfg).centreR +
          ((-9/10 : ℚ) : ℝ) * (Config.normalize cfg).radiusR =
          (Config.normalize cfg).centreR -
            (Config.normalize cfg).radiusR * (9/10) := by
        push_cast; ring
      rw [hx]; simp [gridXLines]
    · have hx : (Config.normalize cfg).centreR +
          ((-1/2 : ℚ) : ℝ) * (Config.normalize cfg).radiusR =
          (Config.normalize cfg).centreR -
            (Config.normalize cfg).radiusR * (1/2) := by
        push_cast; ring
      rw [hx]; simp [gridXLines]
    · have hx : (Config.normalize cfg).centreR +
          ((0 : ℚ) : ℝ) * (Config.normalize cfg).radiusR =
          (Config.normalize cfg).centreR := by
        push_cast; ring
      rw [hx]; simp [gridXLines]
    · have hx : (Config.normalize cfg).centreR +
          ((1/2 : ℚ) : ℝ) * (Config.normalize cfg).radiusR =
          (Config.normalize cfg).centreR +
            (Config.normalize cfg).radiusR * (1/2) := by
        push_cast; ring
      rw [hx]; simp [gridXLines]
    · have hx : (Config.normalize cfg).centreR +
          ((9/10 : ℚ) : ℝ) * (Config.normalize cfg).radiusR =
          (Config.normalize cfg).centreR +
            (Config.normalize cfg).radiusR * (9/10) := by
        push_cast; ring
      rw [hx]; simp [gridXLines]
    · have hx : (Config.normalize cfg).centreR +
          ((1 : ℚ) : ℝ) * (Config.normalize cfg).radiusR =
          (Config.normalize cfg).centreR + (Config.normalize cfg).radiusR := by
        push_cast; ring
      rw [hx]; simp [gridXLines]
  · by_cases hl : (Config.normalize cfg).layout = LayoutType.Grid
    · refine Or.inr ⟨?_, ?_⟩
      · rw [generate_roads_eq, hl]
        rfl
      · intro seg hseg
        rw [generate_roads_eq, hl] at hseg
        have hseg2 : seg ∈ gridRoads (Config.normalize cfg) := hseg
        rcases List.mem_append.mp hseg2 with h1 | h1
        · rcases List.mem_map.mp h1 with ⟨x, _, rfl⟩
          exact Or.inl ⟨rfl, rfl, rfl⟩
        · rcases List.mem_map.mp h1 with ⟨y, _, rfl⟩
          exact Or.inr ⟨rfl, rfl, rfl⟩
    · exact Or.inl hl

/-! ### Facility road-distance claim (C6) -/

/-- One-dimensional gap between the intervals `[a0, a1]` and `[b0, b1]`, in
the exact form computed per axis by `distanceToRoads`
(src/src/CityGenerator.cpp lines 290–295). -/
noncomputable def gap1 (a0 a1 b0 b1 : ℝ) : ℝ :=
  if a1 < b0 then b0 - a1 else if a0 > b1 then a0 - b1 else 0

/-- The set of points of an axis-aligned rectangle. -/
def rectPointSet (r : Rect) : Set (ℝ × ℝ) :=
  {p : ℝ × ℝ | p.1 ∈ Set.Icc r.x0 r.x1 ∧ p.2 ∈ Set.Icc r.y0 r.y1}

/-- Euclidean distance between two plane point sets (claim-side notion):
the infimum of the pointwise distances. -/
noncomputable def setEuclidDist (A B : Set (ℝ × ℝ)) : ℝ :=
  sInf {d : ℝ | ∃ p ∈ A, ∃ q ∈ B,
    d = Real.sqrt ((p.1 - q.1) ^ 2 + (p.2 - q.2) ^ 2)}

/-- The road's axis-aligned bounding box expanded by its hierarchy
half-width — the region `distanceToRoads` actually measures the gap to. -/
noncomputable def expandedBox (road : RoadSegment) : Rect :=
  ⟨min road.x1 road.x2 - (1/2) * ((roadWidth road.type : ℚ) : ℝ),
   min road.y1 road.y2 - (1/2) * ((roadWidth road.type : ℚ) : ℝ),
   max road.x1 road.x2 + (1/2) * ((roadWidth road.type : ℚ) : ℝ),
   max road.y1 road.y2 + (1/2) * ((roadWidth road.type : ℚ) : ℝ)⟩

/-- The points of `road` treated as a thickened segment (claim-side notion):
within the hierarchy half-width of a point of the centre segment. -/
noncomputable def capsulePointSet (road : RoadSegment) : Set (ℝ × ℝ) :=
  {p : ℝ × ℝ | ∃ t : ℝ, t ∈ Set.Icc (0 : ℝ) 1 ∧
    Real.sqrt ((p.1 - (road.x1 + t * (road.x2 - road.x1))) ^ 2 +
        (p.2 - (road.y1 + t * (road.y2 - road.y1))) ^ 2) ≤
      (1/2) * ((roadWidth road.type : ℚ) : ℝ)}

lemma gap1_nonneg (a0 a1 b0 b1 : ℝ) : 0 ≤ gap1 a0 a1 b0 b1 := by
  unfold gap1
  split_ifs with h1 h2
  · linarith
  · linarith
  · exact le_refl 0

lemma gap1_le (a0 a1 b0 b1 s t : ℝ) (hs0 : a0 ≤ s) (hs1 : s ≤ a1)
    (ht0 : b0 ≤ t) (ht1 : t ≤ b1) :
    gap1 a0 a1 b0 b1 ^ 2 ≤ (s - t) ^ 2 := by
  unfold gap1
  split_ifs with h1 h2
  · nlinarith
  · nlinarith
  · nlinarith [sq_nonneg (s - t)]

lemma gap1_achieved (a0 a1 b0 b1 : ℝ) (ha : a0 ≤ a1) (hb : b0 ≤ b1) :
    ∃ s, a0 ≤ s ∧ s ≤ a1 ∧ ∃ t, b0 ≤ t ∧ t ≤ b1 ∧
      (s - t) ^ 2 = gap1 a0 a1 b0 b1 ^ 2 := by
  unfold gap1
  split_ifs with h1 h2
  · exact ⟨a1, ha, le_refl _, b0, le_refl _, hb, by ring⟩
  · exact ⟨a0, le_refl _, ha, b1, hb, le_refl _, by ring⟩
  · refine ⟨max a0 b0, le_max_left _ _, max_le ha (not_lt.mp h1),
      max a0 b0, le_max_right _ _, max_le (not_lt.mp h2) hb, by simp⟩

lemma gapCombine (dx dy : ℝ) (hx : 0 ≤ dx) (hy : 0 ≤ dy) :
    (if dx = 0 ∨ dy = 0 then max dx dy else Real.sqrt (dx ^ 2 + dy ^ 2)) =
      Real.sqrt (dx ^ 2 + dy ^ 2) := by
  split_ifs with h
  · rcases h with h | h
    · subst h
      rw [max_eq_right hy, zero_pow (by norm_num : (2 : ℕ) ≠ 0), zero_add,
        Real.sqrt_sq hy]
    · subst h
      rw [max_eq_left hx, zero_pow (by norm_num : (2 : ℕ) ≠ 0), add_zero,
        Real.sqrt_sq hx]
  · rfl

lemma roadGapDist_eq_sqrt (parcel : Rect) (road : RoadSegment) :
    roadGapDist parcel road = Real.sqrt
      (gap1 parcel.x0 parcel.x1 (expandedBox road).x0 (expandedBox road).x1 ^ 2 +
       gap1 parcel.y0 parcel.y1 (expandedBox road).y0 (expandedBox road).y1 ^ 2) := by
  simp only [roadGapDist]
  show (if gap1 parcel.x0 parcel.x1 (expandedBox road).x0 (expandedBox road).x1 = 0 ∨
        gap1 parcel.y0 parcel.y1 (expandedBox road).y0 (expandedBox road).y1 = 0 then
      max (gap1 parcel.x0 parcel.x1 (expandedBox road).x0 (expandedBox road).x1)
        (gap1 parcel.y0 parcel.y1 (expandedBox road).y0 (expandedBox road).y1)
    else Real.sqrt
      (gap1 parcel.x0 parcel.x1 (expandedBox road).x0 (expandedBox road).x1 ^ 2 +
       gap1 parcel.y0 parcel.y1 (expandedBox road).y0 (expandedBox road).y1 ^ 2)) = _
  exact gapCombine _ _ (gap1_nonneg _ _ _ _) (gap1_nonneg _ _ _ _)

lemma foldl_roadmin_eq (parcel : Rect) :
    ∀ (roads : List RoadSegment) (b : ℝ),
      roads.foldl (fun best road =>
        let dist := roadGapDist parcel road
        if dist < best then dist else best) b =
      roads.foldl (fun best r => min best (roadGapDist parcel r)) b := by
  intro roads
  induction roads with
  | nil => intro b; rfl
  | cons r rest ih =>
    intro b
    simp only [List.foldl_cons]
    rw [ih]
    congr 1
    show (if roadGapDist parcel r < b then roadGapDist parcel r else b) =
      min b (roadGapDist parcel r)
    rcases lt_or_ge (roadGapDist parcel r) b with h | h
    · rw [if_pos h, min_eq_right (le_of_lt h)]
    · rw [if_neg (not_lt.mpr h), min_eq_left h]

/-- Claim C6 (amended): the per-candidate road distance of the facility
stage is, for each road, the Euclidean distance from the footprint rectangle
to the road's half-width-expanded axis-aligned bounding box — not to the
thickened segment itself — and `distanceToRoads` takes the minimum of these
box distances over all roads, starting from `DBL_MAX`. -/
theorem C6_distance_amended (parcel : Rect) (road : RoadSegment)
    (hpx : parcel.x0 ≤ parcel.x1) (hpy : parcel.y0 ≤ parcel.y1) :
    roadGapDist parcel road =
      setEuclidDist (rectPointSet parcel) (rectPointSet (expandedBox road)) ∧
    ∀ roads : List RoadSegment,
      distanceToRoads parcel roads =
        roads.foldl (fun best r => min best (roadGapDist parcel r)) dblMax := by
  constructor
  · have hw0 : (0 : ℝ) ≤ (1/2) * ((roadWidth road.type : ℚ) : ℝ) := by
      rcases road.type <;> norm_num [roadWidth]
    have hbx : (expandedBox road).x0 ≤ (expandedBox road).x1 := by
      show min road.x1 road.x2 - _ ≤ max road.x1 road.x2 + _
      have := min_le_max (a := road.x1) (b := road.x2)
      linarith
    have hby : (expandedBox road).y0 ≤ (expandedBox road).y1 := by
      show min road.y1 road.y2 - _ ≤ max road.y1 road.y2 + _
      have := min_le_max (a := road.y1) (b := road.y2)
      linarith
    obtain ⟨sx, hsx0, hsx1, tx, htx0, htx1, hex⟩ :=
      gap1_achieved parcel.x0 parcel.x1 (expandedBox road).x0
        (expandedBox road).x1 hpx hbx
    obtain ⟨sy, hsy0, hsy1, ty, hty0, hty1, hey⟩ :=
      gap1_achieved parcel.y0 parcel.y1 (expandedBox road).y0
        (expandedBox road).y1 hpy hby
    have hmemd : Real.sqrt ((sx - tx) ^ 2 + (sy - ty) ^ 2) ∈
        {d : ℝ | ∃ p ∈ rectPointSet parcel,
          ∃ q ∈ rectPointSet (expandedBox road),
          d = Real.sqrt ((p.1 - q.1) ^ 2 + (p.2 - q.2) ^ 2)} :=
      ⟨(sx, sy), ⟨⟨hsx0, hsx1⟩, ⟨hsy0, hsy1⟩⟩,
       (tx, ty), ⟨⟨htx0, htx1⟩, ⟨hty0, hty1⟩⟩, rfl⟩
    rw [roadGapDist_eq_sqrt]
    unfold setEuclidDist
    apply le_antisymm
    · apply le_csInf ⟨_, hmemd⟩
      rintro d ⟨p, hp, q, hq, rfl⟩
      apply Real.sqrt_le_sqrt
      have h1 := gap1_le parcel.x0 parcel.x1 (expandedBox road).x0
        (expandedBox road).x1 p.1 q.1 hp.1.1 hp.1.2 hq.1.1 hq.1.2
      have h2 := gap1_le parcel.y0 parcel.y1 (expandedBox road).y0
        (expandedBox road).y1 p.2 q.2 hp.2.1 hp.2.2 hq.2.1 hq.2.2
      linarith
    · have hdval : Real.sqrt ((sx - tx) ^ 2 + (sy - ty) ^ 2) =
          Real.sqrt
            (gap1 parcel.x0 parcel.x1 (expandedBox road).x0
              (expandedBox road).x1 ^ 2 +
             gap1 parcel.y0 parcel.y1 (expandedBox road).y0
              (expandedBox road).y1 ^ 2) := by
        rw [hex, hey]
      rw [← hdval]
      refine csInf_le ⟨0, ?_⟩ hmemd
      rintro d ⟨p, hp, q, hq, rfl⟩
      exact Real.sqrt_nonneg _
  · intro roads
    unfold distanceToRoads
    exact foldl_roadmin_eq parcel roads dblMax

/-- The counterexample parcel for claim C6: the unit square with corners
`(0, 9)` and `(1, 10)`. -/
noncomputable def parcelC6 : Rect := ⟨0, 9, 1, 10⟩

/-- The counterexample road for claim C6: a diagonal Local segment from
`(0, 0)` to `(10, 10)` (half-width 2/5). -/
noncomputable def roadC6 : RoadSegment := ⟨0, 0, 10, 10, RoadType.Local⟩

set_option maxHeartbeats 1000000 in
/-- Claim C6 (counterexample): `distanceToRoads` measures the gap to the
road's half-width-expanded axis-aligned bounding box, not to the thickened
segment.  For the diagonal road `(0,0)–(10,10)` (half-width 2/5) and the
parcel `[0,1] × [9,10]`, the expanded bounding box covers the parcel, so the
code returns 0 — but every point of the parcel is at least
`8/√2 − 2/5 > 5` away from the thickened segment, so the claimed minimum is
positive. -/
theorem C6_counterexample :
    ¬ (∀ (parcel : Rect) (roads : List RoadSegment),
        distanceToRoads parcel roads = roads.foldl (fun best road =>
          min best (setEuclidDist (rectPointSet parcel)
            (capsulePointSet road))) dblMax) := by
  intro hcl
  have hdbl : (0 : ℝ) < dblMax := by
    have h2 : (2 : ℝ) ^ 971 < 2 ^ 1024 := by
      apply pow_lt_pow_right <;> norm_num
    unfold dblMax
    linarith
  have hgap : roadGapDist parcelC6 roadC6 = 0 := by
    simp only [roadGapDist, parcelC6, roadC6, roadWidth]
    norm_num
  have hzero : distanceToRoads parcelC6 [roadC6] = 0 := by
    simp only [distanceToRoads, List.foldl_cons, List.foldl_nil]
    rw [hgap, if_pos hdbl]
  have hlb : (5 : ℝ) ≤ setEuclidDist (rectPointSet parcelC6)
      (capsulePointSet roadC6) := by
    unfold setEuclidDist
    apply le_csInf
    · refine ⟨Real.sqrt (((0 : ℝ) - 0) ^ 2 + ((9 : ℝ) - 0) ^ 2),
        ((0 : ℝ), (9 : ℝ)), ⟨⟨?_, ?_⟩, ⟨?_, ?_⟩⟩,
        ((0 : ℝ), (0 : ℝ)), ⟨0, ⟨le_refl 0, by norm_num⟩, ?_⟩, rfl⟩
      · norm_num [parcelC6]
      · norm_num [parcelC6]
      · norm_num [parcelC6]
      · norm_num [parcelC6]
      · simp only [roadC6]
        norm_num [Real.sqrt_zero, roadWidth]
    · rintro d ⟨p, hp, q, hq, rfl⟩
      obtain ⟨t, ht, hqd⟩ := hq
      have hp11 : (0 : ℝ) ≤ p.1 := hp.1.1
      have hp12 : p.1 ≤ 1 := hp.1.2
      have hp21 : (9 : ℝ) ≤ p.2 := hp.2.1
      have hp22 : p.2 ≤ 10 := hp.2.2
      have hqd' : Real.sqrt ((q.1 - 10 * t) ^ 2 + (q.2 - 10 * t) ^ 2) ≤
          2/5 := by
        have he : (q.1 - (roadC6.x1 + t * (roadC6.x2 - roadC6.x1))) ^ 2 +
            (q.2 - (roadC6.y1 + t * (roadC6.y2 - roadC6.y1))) ^ 2 =
            (q.1 - 10 * t) ^ 2 + (q.2 - 10 * t) ^ 2 := by
          simp only [roadC6]
          ring
        have hw : (1/2 : ℝ) * ((roadWidth roadC6.type : ℚ) : ℝ) = 2/5 := by
          norm_num [roadC6, roadWidth]
        rw [he, hw] at hqd
        exact hqd
      have hX0 : (0 : ℝ) ≤ (q.1 - 10 * t) ^ 2 + (q.2 - 10 * t) ^ 2 := by
        positivity
      have hXle : (q.1 - 10 * t) ^ 2 + (q.2 - 10 * t) ^ 2 ≤ 4/25 := by
        have h1 := Real.sq_sqrt hX0
        have h2 := Real.sqrt_nonneg ((q.1 - 10 * t) ^ 2 + (q.2 - 10 * t) ^ 2)
        nlinarith [hqd']
      have hu : -(2/5) ≤ q.1 - 10 * t := by
        nlinarith [sq_nonneg (q.2 - 10 * t)]
      have hv : q.2 - 10 * t ≤ 2/5 := by
        nlinarith [sq_nonneg (q.1 - 10 * t)]
      have hY0 : (0 : ℝ) ≤ (p.1 - q.1) ^ 2 + (p.2 - q.2) ^ 2 := by positivity
      have h3 := Real.sq_sqrt hY0
      have h4 := Real.sqrt_nonneg ((p.1 - q.1) ^ 2 + (p.2 - q.2) ^ 2)
      have hBA : 36/5 ≤ (p.2 - q.2) - (p.1 - q.1) := by linarith
      have hY : 648/25 ≤ (p.1 - q.1) ^ 2 + (p.2 - q.2) ^ 2 := by
        nlinarith [sq_nonneg ((p.1 - q.1) + (p.2 - q.2)), hBA,
          sq_nonneg ((p.2 - q.2) - (p.1 - q.1) - 36/5)]
      nlinarith [h3, h4, hY]
  have h := hcl parcelC6 [roadC6]
  rw [List.foldl_cons, List.foldl_nil, hzero] at h
  have hpos : (0 : ℝ) < min dblMax
      (setEuclidDist (rectPointSet parcelC6) (capsulePointSet roadC6)) :=
    lt_min hdbl (lt_of_lt_of_le (by norm_num) hlb)
  rw [← h] at hpos
  exact lt_irrefl 0 hpos

/-- Witness for `C6_distance_amended`: the concrete parcel `[0,1] × [9,10]`
and the diagonal Local road satisfy its rectangle hypotheses. -/
theorem C6_distance_amended_witness :
    parcelC6.x0 ≤ parcelC6.x1 ∧ parcelC6.y0 ≤ parcelC6.y1 ∧
    (roadGapDist parcelC6 roadC6 =
      setEuclidDist (rectPointSet parcelC6)
        (rectPointSet (expandedBox roadC6)) ∧
     ∀ roads : List RoadSegment,
       distanceToRoads parcelC6 roads =
         roads.foldl (fun best r => min best (roadGapDist parcelC6 r))
           dblMax) :=
  ⟨by norm_num [parcelC6], by norm_num [parcelC6],
   C6_distance_amended parcelC6 roadC6 (by norm_num [parcelC6])
     (by norm_num [parcelC6])⟩
